import Mathlib

/-! Fletchling: nest refresh and filtering.

A shallow embedding of `filters/db_refresher.go` (`refreshNest`, `RefreshAllNests`)
and of `db_store/golbat.go` (`GetSpawnpointsCount`).

Modelling conventions.
* The nullable scalars of `gopkg.in/guregu/null.v4` are records holding a value and a
  `Valid` flag, as in Go: clearing `Valid` keeps the stored value.
* `float64` values are NaN, the two infinities, or a rational; the comparisons `<`, `≤`
  and `==` are the IEEE ones, false whenever an operand is NaN (only comparisons are
  performed on floats). `int64` values are integers (no arithmetic is performed on
  them), Go errors are strings.
* Collaborators whose code lives outside the two source files (geometry parsing, area,
  the SQL driver, the nest store, the clock) are fields of explicit records.
* Logging is omitted; every collaborator call is recorded in a trace.
-/

namespace Fletchling

/-! ## Floating point values -/

/-- Go `float64`, as far as comparisons see it: NaN, minus infinity, a finite value, or
plus infinity. -/
inductive float64 where
  | nan : float64
  | negInf : float64
  | finite : ℚ → float64
  | posInf : float64
deriving DecidableEq

/-- Go `a < b` on `float64`: false when an operand is NaN. -/
def float64.lt : float64 → float64 → Bool
  | .finite p, .finite q => decide (p < q)
  | .negInf, .finite _ => true
  | .negInf, .posInf => true
  | .finite _, .posInf => true
  | _, _ => false

/-- Go `a == b` on `float64`: false when an operand is NaN. -/
def float64.eq : float64 → float64 → Bool
  | .finite p, .finite q => decide (p = q)
  | .negInf, .negInf => true
  | .posInf, .posInf => true
  | _, _ => false

/-- Go `a <= b` on `float64`: false when an operand is NaN. -/
def float64.le (a b : float64) : Bool :=
  a.lt b || a.eq b

instance : LT float64 := ⟨fun a b => float64.lt a b = true⟩

instance : LE float64 := ⟨fun a b => float64.le a b = true⟩

instance (a b : float64) : Decidable (a < b) :=
  inferInstanceAs (Decidable (float64.lt a b = true))

instance (a b : float64) : Decidable (a ≤ b) :=
  inferInstanceAs (Decidable (float64.le a b = true))

instance (n : Nat) : OfNat float64 n := ⟨float64.finite n⟩

/-! ## Nullable scalars (`null.String`, `null.Float`, `null.Int`, `null.Bool`) -/

/-- Go `null.String`: a string and a validity flag. -/
structure NullString where
  StringVal : String
  Valid : Bool
deriving DecidableEq, Repr

/-- Go `null.Float`: a `float64` and a validity flag. -/
structure NullFloat where
  Float64 : float64
  Valid : Bool
deriving DecidableEq

/-- Go `null.Int`: an `int64` and a validity flag. -/
structure NullInt where
  Int64 : Int
  Valid : Bool
deriving DecidableEq, Repr

/-- Go `null.Bool`: a `bool` and a validity flag. -/
structure NullBool where
  BoolVal : Bool
  Valid : Bool
deriving DecidableEq, Repr

/-- Go `null.StringFrom`. -/
def StringFrom (s : String) : NullString := ⟨s, true⟩

/-- Go `null.FloatFrom`. -/
def FloatFrom (f : float64) : NullFloat := ⟨f, true⟩

/-- Go `null.IntFrom`. -/
def IntFrom (i : Int) : NullInt := ⟨i, true⟩

/-- Go `null.BoolFrom`. -/
def BoolFrom (b : Bool) : NullBool := ⟨b, true⟩

/-- The zero value of `null.String` (`var discarded null.String`). -/
def NullString.zero : NullString := ⟨"", false⟩

/-- Go `null.String.Equal`: both null, or both valid with the same value. -/
def NullString.Equal (s other : NullString) : Bool :=
  s.Valid == other.Valid && (!s.Valid || s.StringVal == other.StringVal)

/-- Go `null.Float.Equal`; the values are compared with the `==` of `float64`, so a valid
NaN is not `Equal` to itself. -/
def NullFloat.Equal (f other : NullFloat) : Bool :=
  f.Valid == other.Valid && (!f.Valid || float64.eq f.Float64 other.Float64)

/-- Go `null.Int.Equal`. -/
def NullInt.Equal (i other : NullInt) : Bool :=
  i.Valid == other.Valid && (!i.Valid || i.Int64 == other.Int64)

/-- Go `null.Bool.Equal`. -/
def NullBool.Equal (b other : NullBool) : Bool :=
  b.Valid == other.Valid && (!b.Valid || b.BoolVal == other.BoolVal)

/-- Go `null.Bool.Ptr`: `nil` when null, else a pointer to the value. -/
def NullBool.Ptr (b : NullBool) : Option Bool :=
  if !b.Valid then none else some b.BoolVal

/-! ## Data model -/

/-- Parsed GeoJSON geometry (`*geojson.Geometry`), kept abstract as its serialised text. -/
structure Geometry where
  json : String
deriving DecidableEq, Repr

/-- The columns of `db_store.Nest` that `refreshNest` reads or writes. The declaration is
outside the source files; all other columns are neither read nor written. -/
structure Nest where
  NestId : Int
  Polygon : String
  M2 : NullFloat
  Spawnpoints : NullInt
  Active : NullBool
  Discarded : NullString
  PokemonId : NullInt
  Updated : NullInt
deriving DecidableEq

/-- The fields of `db_store.NestPartialUpdate` that `refreshNest` assigns; a `nil`
pointer is `none`. -/
structure NestPartialUpdate where
  Discarded : Option NullString
  M2 : Option NullFloat
  Spawnpoints : Option NullInt
  Active : Option Bool
  PokemonId : Option NullInt
  Updated : Option NullInt
deriving DecidableEq

/-- Go `&db_store.NestPartialUpdate{}`: every pointer is `nil`. -/
def NestPartialUpdate.empty : NestPartialUpdate :=
  ⟨none, none, none, none, none, none⟩

/-- Go `RefreshNestConfig`. -/
structure RefreshNestConfig where
  Concurrency : Int
  ForceSpawnpointsRefresh : Bool
  MinAreaM2 : float64
  MaxAreaM2 : float64
  MinSpawnpoints : Int
  MaxOverlapPercent : float64

/-! ## Collaborators -/

/-- Go `GolbatDBStore`, seen through the two things `GetSpawnpointsCount` does with it:
serialise the geometry and scan the single row of the count query. -/
structure GolbatDBStore where
  MarshalJSON : Geometry → Except String String
  ScanCount : Geometry → String → Except String Int

/-- Go `db_store.IterateNestsConcurrentlyOpts`. -/
structure IterateNestsConcurrentlyOpts where
  Concurrency : Int
  IncludePolygon : Bool
deriving DecidableEq

/-- Go `NestsDBStore`, seen through the three methods the refresher calls; an error
result `nil` is `none`. -/
structure NestsDBStore where
  UpdateNestPartial : Int → NestPartialUpdate → Option String
  IterateNestsConcurrently : IterateNestsConcurrentlyOpts → (Nest → Option String) → Option String
  DisableOverlappingNests : float64 → Except String Int

/-- Go `DBRefresher` (without the logger), together with the ambient functions
`nest.Geometry()`, `orb_geo.Area` and `time.Now().Unix()`. -/
structure DBRefresher where
  nestsDBStore : NestsDBStore
  golbatDBStore : Option GolbatDBStore
  ParseGeometry : String → Except String Geometry
  Area : Geometry → float64
  Now : Int

/-- A collaborator call made by the refresher. -/
inductive Call where
  | Geometry : Call
  | GetSpawnpointsCount : Geometry → Call
  | UpdateNestPartial : Int → NestPartialUpdate → Call
  | IterateNestsConcurrently : IterateNestsConcurrentlyOpts → Call
  | DisableOverlappingNests : float64 → Call
deriving DecidableEq

/-- Go `nest.Geometry()`: parse the stored polygon. -/
def Nest.Geometry (refresher : DBRefresher) (nest : Nest) : Except String Geometry :=
  refresher.ParseGeometry nest.Polygon

/-- Go `GolbatDBStore.GetSpawnpointsCount`: serialise the geometry, run the count query
and scan its row; either failure is returned as the error. -/
def GolbatDBStore.GetSpawnpointsCount (st : GolbatDBStore) (geom : Geometry) : Except String Int :=
  match st.MarshalJSON geom with
  | .error err => .error err
  | .ok bytes =>
    match st.ScanCount geom bytes with
    | .error err => .error err
    | .ok numSpawnpoints => .ok numSpawnpoints

/-! ## `refreshNest` -/

/-- The local variables of `refreshNest`, plus the trace of collaborator calls. -/
structure Locals where
  nest : Nest
  partialUpdate : Option NestPartialUpdate
  jsonGeometry : Option Geometry
  active : NullBool
  m2 : NullFloat
  spawnpoints : NullInt
  discarded : NullString
  calls : List Call

/-- Lines 34-45: the initial values of the locals. -/
def refreshNest.init (nest : Nest) : Locals :=
  { nest := nest
    partialUpdate := none
    jsonGeometry := none
    active := BoolFrom false
    m2 := nest.M2
    spawnpoints := nest.Spawnpoints
    discarded := NullString.zero
    calls := [] }

/-- Lines 36-38: the closure `makePartialUpdate` assigns a fresh, empty update. -/
def refreshNest.makePartialUpdate (s : Locals) : Locals :=
  { s with partialUpdate := some NestPartialUpdate.empty }

/-- Lines 47-61: compute the area if it is unknown. -/
def refreshNest.areaStep (refresher : DBRefresher) (s : Locals) : Locals :=
  if !s.m2.Valid then
    match s.nest.Geometry refresher with
    | .ok geometry =>
      { s with jsonGeometry := some geometry
               m2 := FloatFrom (refresher.Area geometry)
               calls := s.calls ++ [Call.Geometry] }
    | .error _ => { s with calls := s.calls ++ [Call.Geometry] }
  else s

/-- Lines 75-88: issue the count query for a geometry that parsed; a failed query
leaves the count as it was. -/
def refreshNest.querySpawnpoints (golbatDBStore : GolbatDBStore) (jsonGeometry : Geometry)
    (s : Locals) : Locals :=
  match golbatDBStore.GetSpawnpointsCount jsonGeometry with
  | .ok numSpawnpoints =>
    { s with spawnpoints := IntFrom numSpawnpoints
             calls := s.calls ++ [Call.GetSpawnpointsCount jsonGeometry] }
  | .error _ => { s with calls := s.calls ++ [Call.GetSpawnpointsCount jsonGeometry] }

/-- Lines 68-97: query the spawnpoint count if the area is known and within the maximum,
the count is unknown or a refresh is forced, and golbat is configured. The geometry of
the area step is reused; otherwise it is parsed here, and a parse error resets both the
area and the count to unknown. -/
def refreshNest.spawnpointStep (refresher : DBRefresher) (config : RefreshNestConfig)
    (s : Locals) : Locals :=
  if s.m2.Valid ∧ (config.MaxAreaM2 ≤ 0 ∨ s.m2.Float64 ≤ config.MaxAreaM2)
      ∧ (s.spawnpoints.Valid = false ∨ config.ForceSpawnpointsRefresh)
      ∧ refresher.golbatDBStore.isSome then
    match refresher.golbatDBStore with
    | none => s
    | some golbatDBStore =>
      match s.jsonGeometry with
      | some jsonGeometry => refreshNest.querySpawnpoints golbatDBStore jsonGeometry s
      | none =>
        match s.nest.Geometry refresher with
        | .ok geometry =>
          refreshNest.querySpawnpoints golbatDBStore geometry
            { s with jsonGeometry := some geometry, calls := s.calls ++ [Call.Geometry] }
        | .error _ =>
          { s with m2 := { s.m2 with Valid := false }
                   spawnpoints := { s.spawnpoints with Valid := false }
                   calls := s.calls ++ [Call.Geometry] }
  else s

/-- Lines 99-139: classify from the area and the spawnpoint count. -/
def refreshNest.classifyStep (config : RefreshNestConfig) (s : Locals) : Locals :=
  if !s.m2.Valid then
    { s with discarded := StringFrom "invalid" }
  else if s.m2.Float64 < config.MinAreaM2
      ∨ (config.MaxAreaM2 > 0 ∧ s.m2.Float64 > config.MaxAreaM2) then
    { s with discarded := StringFrom "area" }
  else if s.spawnpoints.Valid ∧ s.spawnpoints.Int64 < config.MinSpawnpoints then
    { s with discarded := StringFrom "spawnpoints" }
  else
    { s with active := BoolFrom true }

/-- Lines 141-145: the discard reason changed. -/
def refreshNest.diffDiscarded (s : Locals) : Locals :=
  if !s.discarded.Equal s.nest.Discarded then
    let s1 := refreshNest.makePartialUpdate s
    { s1 with partialUpdate := s1.partialUpdate.map (fun pu => { pu with Discarded := some s1.discarded })
              nest := { s1.nest with Discarded := s1.discarded } }
  else s

/-- Lines 147-151: the area changed. -/
def refreshNest.diffM2 (s : Locals) : Locals :=
  if !s.m2.Equal s.nest.M2 then
    let s1 := refreshNest.makePartialUpdate s
    { s1 with partialUpdate := s1.partialUpdate.map (fun pu => { pu with M2 := some s1.m2 })
              nest := { s1.nest with M2 := s1.m2 } }
  else s

/-- Lines 153-157: the spawnpoint count changed. -/
def refreshNest.diffSpawnpoints (s : Locals) : Locals :=
  if !s.spawnpoints.Equal s.nest.Spawnpoints then
    let s1 := refreshNest.makePartialUpdate s
    { s1 with partialUpdate := s1.partialUpdate.map (fun pu => { pu with Spawnpoints := some s1.spawnpoints })
              nest := { s1.nest with Spawnpoints := s1.spawnpoints } }
  else s

/-- Lines 159-163: the active flag changed. -/
def refreshNest.diffActive (s : Locals) : Locals :=
  if !s.active.Equal s.nest.Active then
    let s1 := refreshNest.makePartialUpdate s
    { s1 with partialUpdate := s1.partialUpdate.map (fun pu => { pu with Active := s1.active.Ptr })
              nest := { s1.nest with Active := s1.active } }
  else s

/-- Lines 165-169: a nest that is not active loses its pokemon id. -/
def refreshNest.clearPokemonId (s : Locals) : Locals :=
  if !s.active.BoolVal ∧ s.nest.PokemonId.Valid then
    let s1 := refreshNest.makePartialUpdate s
    let nest := { s1.nest with PokemonId := { s1.nest.PokemonId with Valid := false } }
    { s1 with nest := nest
              partialUpdate := s1.partialUpdate.map (fun pu => { pu with PokemonId := some nest.PokemonId }) }
  else s

/-- Lines 31-97: the locals after the area step and the spawnpoint step. -/
def refreshNest.derive (refresher : DBRefresher) (config : RefreshNestConfig) (nest : Nest) :
    Locals :=
  refreshNest.spawnpointStep refresher config <| refreshNest.areaStep refresher <|
    refreshNest.init nest

/-- Lines 31-139: the locals after classification. -/
def refreshNest.policy (refresher : DBRefresher) (config : RefreshNestConfig) (nest : Nest) :
    Locals :=
  refreshNest.classifyStep config (refreshNest.derive refresher config nest)

/-- Lines 141-169: the five comparisons that build the partial update, in source order. -/
def refreshNest.diff (s : Locals) : Locals :=
  refreshNest.clearPokemonId <| refreshNest.diffActive <| refreshNest.diffSpawnpoints <|
    refreshNest.diffM2 <| refreshNest.diffDiscarded s

/-- Lines 31-169: everything `refreshNest` does before it decides whether to write. -/
def refreshNest.evaluate (refresher : DBRefresher) (config : RefreshNestConfig) (nest : Nest) :
    Locals :=
  refreshNest.diff (refreshNest.policy refresher config nest)

/-- What a call of `refreshNest` returns (`nest`, `err`) and the final value of its locals
with the trace of the collaborator calls it made. -/
structure Outcome where
  nest : Nest
  err : Option String
  locals : Locals

/-- Go `DBRefresher.refreshNest`. -/
def refreshNest (refresher : DBRefresher) (config : RefreshNestConfig) (nest : Nest) : Outcome :=
  let origNest := nest
  let s := refreshNest.evaluate refresher config nest
  match s.partialUpdate with
  | none => { nest := origNest, err := none, locals := s }
  | some partialUpdate =>
    -- lines 176-177
    let nest := { s.nest with Updated := IntFrom refresher.Now }
    let partialUpdate := { partialUpdate with Updated := some nest.Updated }
    let s := { s with nest := nest
                      partialUpdate := some partialUpdate
                      calls := s.calls ++ [Call.UpdateNestPartial nest.NestId partialUpdate] }
    match refresher.nestsDBStore.UpdateNestPartial nest.NestId partialUpdate with
    | some err => { nest := origNest, err := some err, locals := s }
    | none => { nest := nest, err := none, locals := s }

/-- Go `DBRefresher.RefreshNest`. -/
def RefreshNest (refresher : DBRefresher) (config : RefreshNestConfig) (nest : Nest) : Outcome :=
  refreshNest refresher config nest

/-- The writes in a trace: the nest id and the partial update of every call of
`UpdateNestPartial`, in order. -/
def updatesOf : List Call → List (Int × NestPartialUpdate)
  | [] => []
  | Call.UpdateNestPartial id pu :: cs => (id, pu) :: updatesOf cs
  | _ :: cs => updatesOf cs

/-- The geometries handed to `GetSpawnpointsCount` in a trace. -/
def countQueriesOf : List Call → List Geometry
  | [] => []
  | Call.GetSpawnpointsCount g :: cs => g :: countQueriesOf cs
  | _ :: cs => countQueriesOf cs

/-! ## `RefreshAllNests` -/

/-- Go `DBRefresher.RefreshAllNests`: the returned error and the store calls made. -/
def RefreshAllNests (refresher : DBRefresher) (config : RefreshNestConfig) :
    Option String × List Call :=
  let opts : IterateNestsConcurrentlyOpts :=
    { Concurrency := config.Concurrency, IncludePolygon := true }
  let err := refresher.nestsDBStore.IterateNestsConcurrently opts
    (fun nest => (refreshNest refresher config nest).err)
  match err with
  | some err => (some err, [Call.IterateNestsConcurrently opts])
  | none =>
    if config.MaxOverlapPercent < 0 ∨ config.MaxOverlapPercent ≥ 100 then
      (none, [Call.IterateNestsConcurrently opts])
    else
      match refresher.nestsDBStore.DisableOverlappingNests config.MaxOverlapPercent with
      | .error err =>
        (some err, [Call.IterateNestsConcurrently opts,
                    Call.DisableOverlappingNests config.MaxOverlapPercent])
      | .ok _ =>
        (none, [Call.IterateNestsConcurrently opts,
                Call.DisableOverlappingNests config.MaxOverlapPercent])

/-! ## Concrete collaborators, configurations and nests -/

/-- A nest store whose writes and passes all succeed. -/
def okStore : NestsDBStore :=
  { UpdateNestPartial := fun _ _ => none
    IterateNestsConcurrently := fun _ _ => none
    DisableOverlappingNests := fun _ => .ok 0 }

/-- A nest store whose single-row write fails. -/
def failingStore : NestsDBStore :=
  { okStore with UpdateNestPartial := fun _ _ => some "write failed" }

/-- A nest store holding the given nests whose single-row write fails: the iteration
applies the callback to each nest in turn and stops at the first error. -/
def failingListStore (nests : List Nest) : NestsDBStore :=
  { UpdateNestPartial := fun _ _ => some "write failed"
    IterateNestsConcurrently := fun _ f => nests.findSome? f
    DisableOverlappingNests := fun _ => .ok 0 }

/-- A golbat store whose count query answers 3. -/
def okGolbat : GolbatDBStore :=
  { MarshalJSON := fun g => .ok g.json
    ScanCount := fun _ _ => .ok 3 }

/-- A golbat store whose count query fails. -/
def failingGolbat : GolbatDBStore :=
  { MarshalJSON := fun g => .ok g.json
    ScanCount := fun _ _ => .error "query failed" }

/-- A refresher over the given stores: the polygon "bad" does not parse, every other
polygon parses and covers 1000 m², and the clock reads 1700000000. -/
def scenarioRefresher (store : NestsDBStore) (golbat : Option GolbatDBStore) : DBRefresher :=
  { nestsDBStore := store
    golbatDBStore := golbat
    ParseGeometry := fun p => if p = "bad" then .error "invalid geometry" else .ok ⟨p⟩
    Area := fun _ => 1000
    Now := 1700000000 }

/-- A configuration with the given area limits, `MinSpawnpoints = 10`, no forced refresh
and `MaxOverlapPercent = 60`. -/
def scenarioConfig (minAreaM2 maxAreaM2 : float64) : RefreshNestConfig :=
  { Concurrency := 4
    ForceSpawnpointsRefresh := false
    MinAreaM2 := minAreaM2
    MaxAreaM2 := maxAreaM2
    MinSpawnpoints := 10
    MaxOverlapPercent := 60 }

/-- A freshly imported nest: geometry set, every derived attribute unknown. -/
def freshNest : Nest :=
  { NestId := 1
    Polygon := "poly"
    M2 := ⟨0, false⟩
    Spawnpoints := ⟨0, false⟩
    Active := ⟨false, false⟩
    Discarded := ⟨"", false⟩
    PokemonId := ⟨0, false⟩
    Updated := ⟨0, false⟩ }

/-- An active nest of cached area 50 m² and cached count 20 with pokemon id 25. -/
def taggedNest : Nest :=
  { NestId := 2
    Polygon := "poly"
    M2 := FloatFrom 50
    Spawnpoints := IntFrom 20
    Active := BoolFrom true
    Discarded := ⟨"", false⟩
    PokemonId := IntFrom 25
    Updated := IntFrom 1600000000 }

/-- A nest with cached area 1000 m² whose stored polygon does not parse. -/
def staleNest : Nest :=
  { NestId := 3
    Polygon := "bad"
    M2 := FloatFrom 1000
    Spawnpoints := IntFrom 20
    Active := BoolFrom true
    Discarded := ⟨"", false⟩
    PokemonId := ⟨0, false⟩
    Updated := IntFrom 1600000000 }

/-- A nest with unknown area whose stored polygon does not parse. -/
def brokenNest : Nest :=
  { NestId := 4
    Polygon := "bad"
    M2 := ⟨0, false⟩
    Spawnpoints := IntFrom 20
    Active := BoolFrom true
    Discarded := ⟨"", false⟩
    PokemonId := IntFrom 25
    Updated := IntFrom 1600000000 }

/-- A nest with cached area 50 m² and unknown count whose stored polygon does not parse. -/
def smallBrokenNest : Nest :=
  { NestId := 5
    Polygon := "bad"
    M2 := FloatFrom 50
    Spawnpoints := ⟨0, false⟩
    Active := BoolFrom true
    Discarded := ⟨"", false⟩
    PokemonId := ⟨0, false⟩
    Updated := IntFrom 1600000000 }

/-- A nest of cached area 1000 m² and cached count 20 that the overlap pass discarded. -/
def overlapNest : Nest :=
  { NestId := 6
    Polygon := "poly"
    M2 := FloatFrom 1000
    Spawnpoints := IntFrom 20
    Active := BoolFrom false
    Discarded := StringFrom "overlap"
    PokemonId := ⟨0, false⟩
    Updated := IntFrom 1600000000 }

/-- A refresher like `scenarioRefresher` whose area computation returns NaN. -/
def nanAreaRefresher (store : NestsDBStore) (golbat : Option GolbatDBStore) : DBRefresher :=
  { scenarioRefresher store golbat with Area := fun _ => float64.nan }

/-- An active nest with cached count 20 whose cached area is NaN. -/
def nanAreaNest : Nest :=
  { NestId := 7
    Polygon := "poly"
    M2 := FloatFrom float64.nan
    Spawnpoints := IntFrom 20
    Active := BoolFrom true
    Discarded := ⟨"", false⟩
    PokemonId := ⟨0, false⟩
    Updated := IntFrom 1600000000 }

/-- Two nests hold identical records for discarded, area, spawnpoints, active and
pokemon id. -/
def Nest.identicalAttributes (a b : Nest) : Bool :=
  decide (a.Discarded = b.Discarded ∧ a.M2 = b.M2 ∧ a.Spawnpoints = b.Spawnpoints
    ∧ a.Active = b.Active ∧ a.PokemonId = b.PokemonId)

/-- The thresholds handed to `DisableOverlappingNests` in a trace, in order. -/
def overlapPassesOf : List Call → List float64
  | [] => []
  | Call.DisableOverlappingNests p :: cs => p :: overlapPassesOf cs
  | _ :: cs => overlapPassesOf cs

/-- Two nests agree, in the sense of `Equal`, on discarded, area, spawnpoints, active
and pokemon id. -/
def Nest.sameAttributes (a b : Nest) : Bool :=
  a.Discarded.Equal b.Discarded && a.M2.Equal b.M2 && a.Spawnpoints.Equal b.Spawnpoints
    && a.Active.Equal b.Active && a.PokemonId.Equal b.PokemonId

/-! ## The classification rule in the words of the specification -/

/-- The precedence rule of the specification: unknown area gives "invalid"; an area below
the minimum or above a positive maximum gives "area"; a known count below the minimum
gives "spawnpoints"; otherwise the nest is active with no discard reason. The result is
the pair (active, discarded). -/
def classifySpec (config : RefreshNestConfig) (a : NullFloat) (c : NullInt) :
    NullBool × NullString :=
  if a.Valid = false then (BoolFrom false, StringFrom "invalid")
  else if a.Float64 < config.MinAreaM2 then (BoolFrom false, StringFrom "area")
  else if config.MaxAreaM2 > 0 ∧ a.Float64 > config.MaxAreaM2 then
    (BoolFrom false, StringFrom "area")
  else if c.Valid = true ∧ c.Int64 < config.MinSpawnpoints then
    (BoolFrom false, StringFrom "spawnpoints")
  else (BoolFrom true, NullString.zero)

/-! ## Frame lemmas for the steps of `refreshNest` -/

section Frame

open refreshNest

theorem float64.eq_of_eq (a b : float64) (h : float64.eq a b = true) : a = b := by
  cases a <;> cases b <;> simp [float64.eq] at h ⊢
  exact h

theorem float64.eq_self (a : float64) (h : a ≠ float64.nan) : float64.eq a a = true := by
  cases a <;> simp [float64.eq] at h ⊢

theorem float64.not_lt_of_le (a b : float64) (h : a ≤ b) : ¬ b < a := by
  have h1 : float64.le a b = true := h
  intro h2
  have h3 : float64.lt b a = true := h2
  cases a <;> cases b <;> simp [float64.le, float64.lt, float64.eq] at h1 h3
  rename_i p q
  rcases h1 with h1 | h1
  · exact absurd h3 (not_lt.mpr (le_of_lt h1))
  · rw [h1] at h3
    exact absurd h3 (lt_irrefl _)

theorem float64.not_le_of_lt (a b : float64) (h : a < b) : ¬ b ≤ a :=
  fun h2 => float64.not_lt_of_le b a h2 h

/-- Away from NaN the comparisons are total. -/
theorem float64.le_of_not_lt (a b : float64) (ha : a ≠ float64.nan) (hb : b ≠ float64.nan)
    (h : ¬ a < b) : b ≤ a := by
  have h1 : ¬ float64.lt a b = true := h
  show float64.le b a = true
  cases a <;> cases b <;> simp [float64.le, float64.lt, float64.eq] at h1 ha hb ⊢
  rename_i p q
  exact lt_or_eq_of_le h1

theorem areaStep_status (refresher : DBRefresher) (s : Locals) :
    (areaStep refresher s).active = s.active ∧ (areaStep refresher s).discarded = s.discarded
      ∧ (areaStep refresher s).nest = s.nest
      ∧ (areaStep refresher s).partialUpdate = s.partialUpdate
      ∧ (areaStep refresher s).spawnpoints = s.spawnpoints := by
  unfold areaStep
  split
  · split <;> simp
  · simp

theorem querySpawnpoints_status (golbatDBStore : GolbatDBStore) (g : Geometry) (s : Locals) :
    (querySpawnpoints golbatDBStore g s).active = s.active
      ∧ (querySpawnpoints golbatDBStore g s).discarded = s.discarded
      ∧ (querySpawnpoints golbatDBStore g s).nest = s.nest
      ∧ (querySpawnpoints golbatDBStore g s).partialUpdate = s.partialUpdate
      ∧ (querySpawnpoints golbatDBStore g s).m2 = s.m2 := by
  unfold querySpawnpoints
  split <;> simp

theorem spawnpointStep_status (refresher : DBRefresher) (config : RefreshNestConfig)
    (s : Locals) :
    (spawnpointStep refresher config s).active = s.active
      ∧ (spawnpointStep refresher config s).discarded = s.discarded
      ∧ (spawnpointStep refresher config s).nest = s.nest
      ∧ (spawnpointStep refresher config s).partialUpdate = s.partialUpdate := by
  unfold spawnpointStep
  split
  · split
    · simp
    · split
      · simp [querySpawnpoints_status]
      · split
        · simp [querySpawnpoints_status]
        · simp
  · simp

theorem derive_status (refresher : DBRefresher) (config : RefreshNestConfig) (nest : Nest) :
    (derive refresher config nest).active = BoolFrom false
      ∧ (derive refresher config nest).discarded = NullString.zero
      ∧ (derive refresher config nest).nest = nest
      ∧ (derive refresher config nest).partialUpdate = none := by
  unfold derive
  simp [spawnpointStep_status, areaStep_status, init]

theorem classifyStep_frame (config : RefreshNestConfig) (s : Locals) :
    (classifyStep config s).m2 = s.m2 ∧ (classifyStep config s).spawnpoints = s.spawnpoints
      ∧ (classifyStep config s).nest = s.nest
      ∧ (classifyStep config s).partialUpdate = s.partialUpdate
      ∧ (classifyStep config s).calls = s.calls := by
  unfold classifyStep
  split_ifs <;> simp

theorem classifyStep_spec (config : RefreshNestConfig) (s : Locals)
    (ha : s.active = BoolFrom false) (hd : s.discarded = NullString.zero) :
    ((classifyStep config s).active, (classifyStep config s).discarded)
      = classifySpec config s.m2 s.spawnpoints := by
  unfold classifyStep classifySpec
  split_ifs <;> simp_all

theorem diffDiscarded_frame (s : Locals) :
    (diffDiscarded s).active = s.active ∧ (diffDiscarded s).discarded = s.discarded
      ∧ (diffDiscarded s).m2 = s.m2 ∧ (diffDiscarded s).spawnpoints = s.spawnpoints
      ∧ (diffDiscarded s).calls = s.calls := by
  unfold diffDiscarded
  split <;> simp [makePartialUpdate]

theorem diffM2_frame (s : Locals) :
    (diffM2 s).active = s.active ∧ (diffM2 s).discarded = s.discarded
      ∧ (diffM2 s).m2 = s.m2 ∧ (diffM2 s).spawnpoints = s.spawnpoints
      ∧ (diffM2 s).calls = s.calls := by
  unfold diffM2
  split <;> simp [makePartialUpdate]

theorem diffSpawnpoints_frame (s : Locals) :
    (diffSpawnpoints s).active = s.active ∧ (diffSpawnpoints s).discarded = s.discarded
      ∧ (diffSpawnpoints s).m2 = s.m2 ∧ (diffSpawnpoints s).spawnpoints = s.spawnpoints
      ∧ (diffSpawnpoints s).calls = s.calls := by
  unfold diffSpawnpoints
  split <;> simp [makePartialUpdate]

theorem diffActive_frame (s : Locals) :
    (diffActive s).active = s.active ∧ (diffActive s).discarded = s.discarded
      ∧ (diffActive s).m2 = s.m2 ∧ (diffActive s).spawnpoints = s.spawnpoints
      ∧ (diffActive s).calls = s.calls := by
  unfold diffActive
  split <;> simp [makePartialUpdate]

theorem clearPokemonId_frame (s : Locals) :
    (clearPokemonId s).active = s.active ∧ (clearPokemonId s).discarded = s.discarded
      ∧ (clearPokemonId s).m2 = s.m2 ∧ (clearPokemonId s).spawnpoints = s.spawnpoints
      ∧ (clearPokemonId s).calls = s.calls := by
  unfold clearPokemonId
  split <;> simp [makePartialUpdate]

theorem diffDiscarded_effect (s : Locals) :
    (diffDiscarded s).nest
        = { s.nest with Discarded :=
              if s.discarded.Equal s.nest.Discarded then s.nest.Discarded else s.discarded }
      ∧ (diffDiscarded s).partialUpdate
        = if s.discarded.Equal s.nest.Discarded then s.partialUpdate
          else some { NestPartialUpdate.empty with Discarded := some s.discarded } := by
  unfold diffDiscarded
  split <;> simp_all [makePartialUpdate]

theorem diffM2_effect (s : Locals) :
    (diffM2 s).nest
        = { s.nest with M2 := if s.m2.Equal s.nest.M2 then s.nest.M2 else s.m2 }
      ∧ (diffM2 s).partialUpdate
        = if s.m2.Equal s.nest.M2 then s.partialUpdate
          else some { NestPartialUpdate.empty with M2 := some s.m2 } := by
  unfold diffM2
  split <;> simp_all [makePartialUpdate]

theorem diffSpawnpoints_effect (s : Locals) :
    (diffSpawnpoints s).nest
        = { s.nest with Spawnpoints :=
              if s.spawnpoints.Equal s.nest.Spawnpoints then s.nest.Spawnpoints
              else s.spawnpoints }
      ∧ (diffSpawnpoints s).partialUpdate
        = if s.spawnpoints.Equal s.nest.Spawnpoints then s.partialUpdate
          else some { NestPartialUpdate.empty with Spawnpoints := some s.spawnpoints } := by
  unfold diffSpawnpoints
  split <;> simp_all [makePartialUpdate]

theorem diffActive_effect (s : Locals) :
    (diffActive s).nest
        = { s.nest with Active := if s.active.Equal s.nest.Active then s.nest.Active else s.active }
      ∧ (diffActive s).partialUpdate
        = if s.active.Equal s.nest.Active then s.partialUpdate
          else some { NestPartialUpdate.empty with Active := s.active.Ptr } := by
  unfold diffActive
  split <;> simp_all [makePartialUpdate]

theorem clearPokemonId_effect (s : Locals) :
    (clearPokemonId s).nest
        = { s.nest with PokemonId :=
              if s.active.BoolVal = false ∧ s.nest.PokemonId.Valid = true
              then { s.nest.PokemonId with Valid := false } else s.nest.PokemonId }
      ∧ (clearPokemonId s).partialUpdate
        = if s.active.BoolVal = false ∧ s.nest.PokemonId.Valid = true
          then some { NestPartialUpdate.empty with
                        PokemonId := some { s.nest.PokemonId with Valid := false } }
          else s.partialUpdate := by
  unfold clearPokemonId
  by_cases h : s.active.BoolVal = false ∧ s.nest.PokemonId.Valid = true
  · simp [h, makePartialUpdate]
  · have h2 : ¬ ((!s.active.BoolVal) = true ∧ s.nest.PokemonId.Valid = true) := by
      simpa using h
    rw [if_neg h2, if_neg h, if_neg h]
    simp

/-- Closed form of the five comparisons: the nest the locals end with. -/
theorem diff_nest (s : Locals) :
    (diff s).nest =
      { s.nest with
        Discarded := if s.discarded.Equal s.nest.Discarded then s.nest.Discarded else s.discarded
        M2 := if s.m2.Equal s.nest.M2 then s.nest.M2 else s.m2
        Spawnpoints :=
          if s.spawnpoints.Equal s.nest.Spawnpoints then s.nest.Spawnpoints else s.spawnpoints
        Active := if s.active.Equal s.nest.Active then s.nest.Active else s.active
        PokemonId :=
          if s.active.BoolVal = false ∧ s.nest.PokemonId.Valid = true
          then { s.nest.PokemonId with Valid := false } else s.nest.PokemonId } := by
  unfold diff
  simp [clearPokemonId_effect, diffActive_effect, diffSpawnpoints_effect, diffM2_effect,
    diffDiscarded_effect, diffActive_frame, diffSpawnpoints_frame, diffM2_frame,
    diffDiscarded_frame]

/-- Closed form of the five comparisons: the partial update the locals end with. Each
comparison that fires assigns a fresh update, so the last one that fires decides. -/
theorem diff_partialUpdate (s : Locals) :
    (diff s).partialUpdate =
      if s.active.BoolVal = false ∧ s.nest.PokemonId.Valid = true then
        some { NestPartialUpdate.empty with
                 PokemonId := some { s.nest.PokemonId with Valid := false } }
      else if s.active.Equal s.nest.Active = false then
        some { NestPartialUpdate.empty with Active := s.active.Ptr }
      else if s.spawnpoints.Equal s.nest.Spawnpoints = false then
        some { NestPartialUpdate.empty with Spawnpoints := some s.spawnpoints }
      else if s.m2.Equal s.nest.M2 = false then
        some { NestPartialUpdate.empty with M2 := some s.m2 }
      else if s.discarded.Equal s.nest.Discarded = false then
        some { NestPartialUpdate.empty with Discarded := some s.discarded }
      else s.partialUpdate := by
  unfold diff
  simp only [clearPokemonId_effect, diffActive_effect, diffSpawnpoints_effect, diffM2_effect,
    diffDiscarded_effect, diffActive_frame, diffSpawnpoints_frame, diffM2_frame,
    diffDiscarded_frame]
  split_ifs <;> simp_all

theorem evaluate_frame (refresher : DBRefresher) (config : RefreshNestConfig) (nest : Nest) :
    (evaluate refresher config nest).active = (policy refresher config nest).active
      ∧ (evaluate refresher config nest).discarded = (policy refresher config nest).discarded
      ∧ (evaluate refresher config nest).m2 = (policy refresher config nest).m2
      ∧ (evaluate refresher config nest).spawnpoints = (policy refresher config nest).spawnpoints
      ∧ (evaluate refresher config nest).calls = (policy refresher config nest).calls := by
  unfold evaluate diff
  simp [clearPokemonId_frame, diffActive_frame, diffSpawnpoints_frame, diffM2_frame,
    diffDiscarded_frame]

theorem refreshNest_locals (refresher : DBRefresher) (config : RefreshNestConfig) (nest : Nest) :
    (refreshNest refresher config nest).locals.active = (policy refresher config nest).active
      ∧ (refreshNest refresher config nest).locals.discarded
          = (policy refresher config nest).discarded
      ∧ (refreshNest refresher config nest).locals.m2 = (policy refresher config nest).m2
      ∧ (refreshNest refresher config nest).locals.spawnpoints
          = (policy refresher config nest).spawnpoints := by
  unfold refreshNest
  simp only
  split
  · simp [evaluate_frame]
  · split <;> simp [evaluate_frame]

theorem policy_classification (refresher : DBRefresher) (config : RefreshNestConfig)
    (nest : Nest) :
    (policy refresher config nest).m2 = (derive refresher config nest).m2
      ∧ (policy refresher config nest).spawnpoints = (derive refresher config nest).spawnpoints
      ∧ ((policy refresher config nest).active, (policy refresher config nest).discarded)
          = classifySpec config (derive refresher config nest).m2
              (derive refresher config nest).spawnpoints := by
  unfold policy
  refine ⟨(classifyStep_frame _ _).1, (classifyStep_frame _ _).2.1, ?_⟩
  exact classifyStep_spec config _ (derive_status refresher config nest).1
    (derive_status refresher config nest).2.1

theorem BoolFrom_of_Ptr (a : NullBool) (b : Bool) (h : a.Ptr = some b) : BoolFrom b = a := by
  cases a with
  | mk bv vv =>
    cases vv
    · simp [NullBool.Ptr] at h
    · simp [NullBool.Ptr] at h
      simp [BoolFrom, h]

theorem updatesOf_append (xs ys : List Call) :
    updatesOf (xs ++ ys) = updatesOf xs ++ updatesOf ys := by
  induction xs with
  | nil => simp [updatesOf]
  | cons x xs ih => cases x <;> simp [updatesOf, ih]

theorem countQueriesOf_append (xs ys : List Call) :
    countQueriesOf (xs ++ ys) = countQueriesOf xs ++ countQueriesOf ys := by
  induction xs with
  | nil => simp [countQueriesOf]
  | cons x xs ih => cases x <;> simp [countQueriesOf, ih]

theorem areaStep_updates (refresher : DBRefresher) (s : Locals) :
    updatesOf (areaStep refresher s).calls = updatesOf s.calls := by
  unfold areaStep
  split
  · split <;> simp [updatesOf_append, updatesOf]
  · rfl

theorem querySpawnpoints_updates (golbatDBStore : GolbatDBStore) (g : Geometry) (s : Locals) :
    updatesOf (querySpawnpoints golbatDBStore g s).calls = updatesOf s.calls := by
  unfold querySpawnpoints
  split <;> simp [updatesOf_append, updatesOf]

theorem spawnpointStep_updates (refresher : DBRefresher) (config : RefreshNestConfig)
    (s : Locals) :
    updatesOf (spawnpointStep refresher config s).calls = updatesOf s.calls := by
  unfold spawnpointStep
  split
  · split
    · rfl
    · split
      · simp [querySpawnpoints_updates]
      · split
        · simp [querySpawnpoints_updates, updatesOf_append, updatesOf]
        · simp [updatesOf_append, updatesOf]
  · rfl

theorem policy_start (refresher : DBRefresher) (config : RefreshNestConfig) (nest : Nest) :
    (policy refresher config nest).nest = nest
      ∧ (policy refresher config nest).partialUpdate = none
      ∧ updatesOf (policy refresher config nest).calls = [] := by
  unfold policy
  have h := derive_status refresher config nest
  have f := classifyStep_frame config (derive refresher config nest)
  refine ⟨f.2.2.1.trans h.2.2.1, f.2.2.2.1.trans h.2.2.2, ?_⟩
  rw [f.2.2.2.2]
  unfold derive
  rw [spawnpointStep_updates, areaStep_updates]
  rfl

theorem evaluate_updates (refresher : DBRefresher) (config : RefreshNestConfig) (nest : Nest) :
    updatesOf (evaluate refresher config nest).calls = [] := by
  rw [(evaluate_frame refresher config nest).2.2.2.2]
  exact (policy_start refresher config nest).2.2

theorem evaluate_nestId (refresher : DBRefresher) (config : RefreshNestConfig) (nest : Nest) :
    (evaluate refresher config nest).nest.NestId = nest.NestId := by
  unfold evaluate
  rw [diff_nest, (policy_start refresher config nest).1]

/-- The trace of `refreshNest` holds no write when the diff is empty and otherwise the
single write of the diff stamped with the current time. -/
theorem refreshNest_updates (refresher : DBRefresher) (config : RefreshNestConfig) (nest : Nest) :
    updatesOf (refreshNest refresher config nest).locals.calls
      = match (evaluate refresher config nest).partialUpdate with
        | none => []
        | some pu => [(nest.NestId, { pu with Updated := some (IntFrom refresher.Now) })] := by
  unfold refreshNest
  simp only
  split
  · rename_i h
    simp [h, evaluate_updates]
  · rename_i pu h
    split <;> simp [h, updatesOf_append, updatesOf, evaluate_updates, evaluate_nestId]

theorem derive_idem (r : DBRefresher) (store : NestsDBStore) (now : Int) (c : RefreshNestConfig)
    (n n' : Nest) (hpoly : n'.Polygon = n.Polygon) (hm : n'.M2 = (derive r c n).m2)
    (hs : n'.Spawnpoints = (derive r c n).spawnpoints) :
    (derive { r with nestsDBStore := store, Now := now } c n').m2 = (derive r c n).m2
      ∧ (derive { r with nestsDBStore := store, Now := now } c n').spawnpoints
          = (derive r c n).spawnpoints := by
  obtain ⟨id', poly', m2', sp', a', d', pk', u'⟩ := n'
  simp only at hpoly hm hs
  subst hpoly hm hs
  cases hf : c.ForceSpawnpointsRefresh <;> cases hv : n.M2.Valid <;>
    cases hsv : n.Spawnpoints.Valid <;> cases hgol : r.golbatDBStore with
  | none =>
    cases hgeo : r.ParseGeometry n.Polygon <;>
    simp [derive, areaStep, spawnpointStep, querySpawnpoints, init, Nest.Geometry, hgeo, hgol, hv, hsv, hf, FloatFrom, IntFrom]
  | some golbat =>
    cases hgeo : r.ParseGeometry n.Polygon with
    | error e =>
      by_cases hmax1 : c.MaxAreaM2 ≤ 0 ∨ n.M2.Float64 ≤ c.MaxAreaM2 <;>
      simp [derive, areaStep, spawnpointStep, querySpawnpoints, init, Nest.Geometry, hgeo, hgol, hv, hsv, hf, FloatFrom, IntFrom, hmax1]
    | ok g =>
      cases hq : golbat.GetSpawnpointsCount g <;>
      by_cases hmax1 : c.MaxAreaM2 ≤ 0 ∨ n.M2.Float64 ≤ c.MaxAreaM2 <;>
      by_cases hmax2 : c.MaxAreaM2 ≤ 0 ∨ r.Area g ≤ c.MaxAreaM2 <;>
      simp [derive, areaStep, spawnpointStep, querySpawnpoints, init, Nest.Geometry, hgeo, hgol, hv, hsv, hf, FloatFrom, IntFrom, hmax1, hmax2, hq]

theorem NullString_Equal_refl (a : NullString) : a.Equal a = true := by
  cases a with
  | mk v b => cases b <;> simp [NullString.Equal]

/-- A nullable float is `Equal` to itself unless it is a valid NaN. -/
theorem NullFloat_Equal_refl (a : NullFloat)
    (h : ¬ (a.Valid = true ∧ a.Float64 = float64.nan)) : a.Equal a = true := by
  cases a with
  | mk v b =>
    cases b
    · simp [NullFloat.Equal]
    · have hv : v ≠ float64.nan := fun hn => h ⟨rfl, hn⟩
      simp [NullFloat.Equal, float64.eq_self v hv]

theorem NullInt_Equal_refl (a : NullInt) : a.Equal a = true := by
  cases a with
  | mk v b => cases b <;> simp [NullInt.Equal]

theorem NullBool_Equal_refl (a : NullBool) : a.Equal a = true := by
  cases a with
  | mk v b => cases b <;> simp [NullBool.Equal]

/-- When the derived area or count compares `Equal` to the cached one, it is the cached
record itself. -/
theorem derive_equal_eq (r : DBRefresher) (c : RefreshNestConfig) (n : Nest) :
    ((derive r c n).m2.Equal n.M2 = true → (derive r c n).m2 = n.M2)
      ∧ ((derive r c n).spawnpoints.Equal n.Spawnpoints = true
          → (derive r c n).spawnpoints = n.Spawnpoints) := by
  obtain ⟨id, poly, ⟨mf, mv⟩, ⟨si, sv⟩, a, d, pk, u⟩ := n
  cases hf : c.ForceSpawnpointsRefresh <;> cases mv <;> cases sv <;>
    cases hgol : r.golbatDBStore with
  | none =>
    cases hgeo : r.ParseGeometry poly <;>
    simp [derive, areaStep, spawnpointStep, querySpawnpoints, init, Nest.Geometry, hgeo, hgol,
      hf, FloatFrom, IntFrom, NullFloat.Equal, NullInt.Equal]
  | some golbat =>
    cases hgeo : r.ParseGeometry poly with
    | error e =>
      by_cases hmax1 : c.MaxAreaM2 ≤ 0 ∨ mf ≤ c.MaxAreaM2 <;>
      simp [derive, areaStep, spawnpointStep, querySpawnpoints, init, Nest.Geometry, hgeo, hgol,
        hf, FloatFrom, IntFrom, hmax1, NullFloat.Equal, NullInt.Equal]
    | ok g =>
      cases hq : golbat.GetSpawnpointsCount g <;>
      by_cases hmax1 : c.MaxAreaM2 ≤ 0 ∨ mf ≤ c.MaxAreaM2 <;>
      by_cases hmax2 : c.MaxAreaM2 ≤ 0 ∨ r.Area g ≤ c.MaxAreaM2 <;>
      simp [derive, areaStep, spawnpointStep, querySpawnpoints, init, Nest.Geometry, hgeo, hgol,
        hf, FloatFrom, IntFrom, hmax1, hmax2, hq, NullFloat.Equal, NullInt.Equal]

/-- The nest the locals end with, field by field, in terms of the classified locals. -/
theorem evaluate_nest (r : DBRefresher) (c : RefreshNestConfig) (n : Nest) :
    (evaluate r c n).nest =
      { n with
        Discarded :=
          if (policy r c n).discarded.Equal n.Discarded then n.Discarded
          else (policy r c n).discarded
        M2 := if (policy r c n).m2.Equal n.M2 then n.M2 else (policy r c n).m2
        Spawnpoints :=
          if (policy r c n).spawnpoints.Equal n.Spawnpoints then n.Spawnpoints
          else (policy r c n).spawnpoints
        Active := if (policy r c n).active.Equal n.Active then n.Active else (policy r c n).active
        PokemonId :=
          if (policy r c n).active.BoolVal = false ∧ n.PokemonId.Valid = true
          then { n.PokemonId with Valid := false } else n.PokemonId } := by
  unfold evaluate
  rw [diff_nest, (policy_start r c n).1]

/-- The partial update the locals end with, in terms of the classified locals. -/
theorem evaluate_partialUpdate (r : DBRefresher) (c : RefreshNestConfig) (n : Nest) :
    (evaluate r c n).partialUpdate =
      if (policy r c n).active.BoolVal = false ∧ n.PokemonId.Valid = true then
        some { NestPartialUpdate.empty with
                 PokemonId := some { n.PokemonId with Valid := false } }
      else if (policy r c n).active.Equal n.Active = false then
        some { NestPartialUpdate.empty with Active := (policy r c n).active.Ptr }
      else if (policy r c n).spawnpoints.Equal n.Spawnpoints = false then
        some { NestPartialUpdate.empty with Spawnpoints := some (policy r c n).spawnpoints }
      else if (policy r c n).m2.Equal n.M2 = false then
        some { NestPartialUpdate.empty with M2 := some (policy r c n).m2 }
      else if (policy r c n).discarded.Equal n.Discarded = false then
        some { NestPartialUpdate.empty with Discarded := some (policy r c n).discarded }
      else none := by
  unfold evaluate
  rw [diff_partialUpdate, (policy_start r c n).1, (policy_start r c n).2.1]

/-- The diff is empty exactly when nothing compares different and no id has to be
cleared. -/
theorem evaluate_partialUpdate_eq_none (r : DBRefresher) (c : RefreshNestConfig) (n : Nest) :
    (evaluate r c n).partialUpdate = none ↔
      ((policy r c n).discarded.Equal n.Discarded = true
        ∧ (policy r c n).m2.Equal n.M2 = true
        ∧ (policy r c n).spawnpoints.Equal n.Spawnpoints = true
        ∧ (policy r c n).active.Equal n.Active = true
        ∧ ¬ ((policy r c n).active.BoolVal = false ∧ n.PokemonId.Valid = true)) := by
  rw [evaluate_partialUpdate]
  split_ifs <;> simp_all

theorem evaluate_nest_of_none (r : DBRefresher) (c : RefreshNestConfig) (n : Nest)
    (h : (evaluate r c n).partialUpdate = none) : (evaluate r c n).nest = n := by
  have h2 := (evaluate_partialUpdate_eq_none r c n).1 h
  rw [evaluate_nest]
  simp only [h2.1, h2.2.1, h2.2.2.1, h2.2.2.2.1, if_true]
  rw [if_neg h2.2.2.2.2]

/-- What `refreshNest` returns, by the three ways it can end. -/
theorem refreshNest_result (r : DBRefresher) (c : RefreshNestConfig) (n : Nest) :
    ((evaluate r c n).partialUpdate = none
        ∧ (refreshNest r c n).nest = n ∧ (refreshNest r c n).err = none
        ∧ (refreshNest r c n).locals = evaluate r c n)
      ∨ (∃ pu, (evaluate r c n).partialUpdate = some pu
          ∧ ((∃ e, r.nestsDBStore.UpdateNestPartial n.NestId
                    { pu with Updated := some (IntFrom r.Now) } = some e
                ∧ (refreshNest r c n).nest = n ∧ (refreshNest r c n).err = some e)
              ∨ (r.nestsDBStore.UpdateNestPartial n.NestId
                    { pu with Updated := some (IntFrom r.Now) } = none
                ∧ (refreshNest r c n).nest
                    = { (evaluate r c n).nest with Updated := IntFrom r.Now }
                ∧ (refreshNest r c n).err = none))) := by
  unfold refreshNest
  simp only [evaluate_nestId]
  cases h : (evaluate r c n).partialUpdate with
  | none => simp
  | some pu =>
    right
    refine ⟨pu, rfl, ?_⟩
    cases hw : r.nestsDBStore.UpdateNestPartial n.NestId
        { pu with Updated := some (IntFrom r.Now) } with
    | none => simp [hw]
    | some e => simp [hw]

/-- A nest returned without error is the nest the locals end with, up to `Updated`. -/
theorem refreshNest_ok_nest (r : DBRefresher) (c : RefreshNestConfig) (n : Nest)
    (h : (refreshNest r c n).err = none) :
    ∃ u, (refreshNest r c n).nest = { (evaluate r c n).nest with Updated := u } := by
  rcases refreshNest_result r c n with ⟨hn, hnest, _, _⟩ | ⟨pu, _, ⟨e, _, _, he⟩ | ⟨_, hnest, _⟩⟩
  · exact ⟨n.Updated, by rw [hnest, evaluate_nest_of_none r c n hn]⟩
  · rw [he] at h
    cases h
  · exact ⟨_, hnest⟩

/-- The nest the locals end with agrees with the classified locals on every attribute. -/
theorem evaluate_nest_settled (r : DBRefresher) (c : RefreshNestConfig) (n : Nest) :
    (evaluate r c n).nest.Polygon = n.Polygon
      ∧ (evaluate r c n).nest.M2 = (policy r c n).m2
      ∧ (evaluate r c n).nest.Spawnpoints = (policy r c n).spawnpoints
      ∧ (policy r c n).discarded.Equal (evaluate r c n).nest.Discarded = true
      ∧ (policy r c n).active.Equal (evaluate r c n).nest.Active = true
      ∧ ¬ ((policy r c n).active.BoolVal = false
            ∧ (evaluate r c n).nest.PokemonId.Valid = true) := by
  have hp := policy_classification r c n
  have he := derive_equal_eq r c n
  rw [← hp.1, ← hp.2.1] at he
  rw [evaluate_nest]
  refine ⟨rfl, ?_, ?_, ?_, ?_, ?_⟩
  · show (if _ then _ else _) = _
    split_ifs with hq
    · exact (he.1 hq).symm
    · rfl
  · show (if _ then _ else _) = _
    split_ifs with hq
    · exact (he.2 hq).symm
    · rfl
  · show NullString.Equal _ (if _ then _ else _) = true
    split_ifs with hq
    · exact hq
    · exact NullString_Equal_refl _
  · show NullBool.Equal _ (if _ then _ else _) = true
    split_ifs with hq
    · exact hq
    · exact NullBool_Equal_refl _
  · show ¬ (_ ∧ NullInt.Valid (if _ then _ else _) = true)
    split_ifs with hq
    · simp
    · exact hq


/-- Re-evaluating, with the same geometry, area and count answers, a nest that carries the
derived area and count and already agrees with the classification: the classification is
the same and the diff is empty. -/
theorem policy_of_settled (r : DBRefresher) (store : NestsDBStore) (now : Int)
    (c : RefreshNestConfig) (n n' : Nest) (hpoly : n'.Polygon = n.Polygon)
    (hm : n'.M2 = (policy r c n).m2) (hs : n'.Spawnpoints = (policy r c n).spawnpoints) :
    (policy { r with nestsDBStore := store, Now := now } c n').m2 = (policy r c n).m2
      ∧ (policy { r with nestsDBStore := store, Now := now } c n').spawnpoints
          = (policy r c n).spawnpoints
      ∧ (policy { r with nestsDBStore := store, Now := now } c n').active = (policy r c n).active
      ∧ (policy { r with nestsDBStore := store, Now := now } c n').discarded
          = (policy r c n).discarded := by
  have hp := policy_classification r c n
  have hp2 := policy_classification { r with nestsDBStore := store, Now := now } c n'
  rw [hp.1] at hm
  rw [hp.2.1] at hs
  have hd := derive_idem r store now c n n' hpoly hm hs
  have hcl := hp2.2.2
  rw [hd.1, hd.2, ← hp.2.2] at hcl
  refine ⟨by rw [hp2.1, hd.1, hp.1], by rw [hp2.2.1, hd.2, hp.2.1], ?_, ?_⟩
  · exact congrArg Prod.fst hcl
  · exact congrArg Prod.snd hcl


theorem areaStep_init (r : DBRefresher) (n : Nest) :
    (areaStep r (init n)).spawnpoints = n.Spawnpoints
      ∧ (areaStep r (init n)).nest = n
      ∧ countQueriesOf (areaStep r (init n)).calls = []
      ∧ (n.M2.Valid = true →
          (areaStep r (init n)).m2 = n.M2 ∧ (areaStep r (init n)).jsonGeometry = none)
      ∧ (n.M2.Valid = false → ∀ g, n.Geometry r = .ok g →
          (areaStep r (init n)).m2 = FloatFrom (r.Area g)
            ∧ (areaStep r (init n)).jsonGeometry = some g)
      ∧ (n.M2.Valid = false → ∀ e, n.Geometry r = .error e →
          (areaStep r (init n)).m2 = n.M2 ∧ (areaStep r (init n)).jsonGeometry = none) := by
  unfold areaStep
  cases hv : n.M2.Valid <;> cases hg : n.Geometry r <;>
    simp [init, hv, hg, countQueriesOf]

theorem querySpawnpoints_queries (st : GolbatDBStore) (g : Geometry) (s : Locals) :
    countQueriesOf (querySpawnpoints st g s).calls = countQueriesOf s.calls ++ [g]
      ∧ (querySpawnpoints st g s).spawnpoints
          = (match st.GetSpawnpointsCount g with
             | .ok k => IntFrom k
             | .error _ => s.spawnpoints) := by
  unfold querySpawnpoints
  split <;> simp [countQueriesOf_append, countQueriesOf]

/-- The spawnpoint step issues no query when its condition fails, and otherwise at most
one, whose outcome decides the count. -/
theorem spawnpointStep_queries (r : DBRefresher) (c : RefreshNestConfig) (s : Locals) :
    (¬ (s.m2.Valid = true ∧ (c.MaxAreaM2 ≤ 0 ∨ s.m2.Float64 ≤ c.MaxAreaM2)
          ∧ (s.spawnpoints.Valid = false ∨ c.ForceSpawnpointsRefresh = true)
          ∧ r.golbatDBStore.isSome = true) →
        spawnpointStep r c s = s)
      ∧ (countQueriesOf (spawnpointStep r c s).calls = countQueriesOf s.calls
          ∨ ∃ st g, r.golbatDBStore = some st
              ∧ countQueriesOf (spawnpointStep r c s).calls = countQueriesOf s.calls ++ [g]
              ∧ (spawnpointStep r c s).m2 = s.m2
              ∧ (spawnpointStep r c s).spawnpoints
                  = (match st.GetSpawnpointsCount g with
                     | .ok k => IntFrom k
                     | .error _ => s.spawnpoints)) := by
  unfold spawnpointStep
  refine ⟨fun h => if_neg h, ?_⟩
  split
  · split
    · exact Or.inl rfl
    · rename_i st hst
      split
      · rename_i g hg
        exact Or.inr ⟨st, g, hst, (querySpawnpoints_queries st g s).1,
          (querySpawnpoints_status st g s).2.2.2.2, (querySpawnpoints_queries st g s).2⟩
      · split
        · rename_i g hg
          refine Or.inr ⟨st, g, hst, ?_, ?_, ?_⟩
          · rw [(querySpawnpoints_queries st g _).1]
            simp [countQueriesOf_append, countQueriesOf]
          · rw [(querySpawnpoints_status st g _).2.2.2.2]
          · rw [(querySpawnpoints_queries st g _).2]
        · left
          simp [countQueriesOf_append, countQueriesOf]
  · exact Or.inl rfl

/-- The count queries of a whole call are those of the spawnpoint step. -/
theorem refreshNest_queries (r : DBRefresher) (c : RefreshNestConfig) (n : Nest) :
    countQueriesOf (refreshNest r c n).locals.calls = countQueriesOf (derive r c n).calls := by
  have hp : (policy r c n).calls = (derive r c n).calls := by
    unfold policy
    exact (classifyStep_frame c _).2.2.2.2
  have he := (evaluate_frame r c n).2.2.2.2
  unfold refreshNest
  simp only
  split
  · simp [he, hp]
  · split <;> simp [he, hp, countQueriesOf_append, countQueriesOf]

/-- The only error `refreshNest` returns is the error of the write it issued. -/
theorem refreshNest_err (r : DBRefresher) (c : RefreshNestConfig) (n : Nest) :
    (refreshNest r c n).err = none
      ∨ ∃ id pu e, (id, pu) ∈ updatesOf (refreshNest r c n).locals.calls
          ∧ r.nestsDBStore.UpdateNestPartial id pu = some e
          ∧ (refreshNest r c n).err = some e := by
  have hupd := refreshNest_updates r c n
  rcases refreshNest_result r c n with
    ⟨_, _, herr, _⟩ | ⟨pu0, hpu0, ⟨e0, hf0, _, herr⟩ | ⟨_, _, herr⟩⟩
  · exact Or.inl herr
  · right
    rw [hpu0] at hupd
    exact ⟨n.NestId, _, e0, by rw [hupd]; simp, hf0, herr⟩
  · exact Or.inl herr

/-- When a count query is in the trace, the spawnpoint step ran on a known area within the
maximum, the area is unchanged by it, and the query's outcome decides the count. -/
theorem derive_of_query (r : DBRefresher) (c : RefreshNestConfig) (n : Nest) (g : Geometry)
    (hg : g ∈ countQueriesOf (derive r c n).calls) :
    ∃ st, r.golbatDBStore = some st
      ∧ (derive r c n).m2 = (areaStep r (init n)).m2
      ∧ (derive r c n).m2.Valid = true
      ∧ (c.MaxAreaM2 ≤ 0 ∨ (derive r c n).m2.Float64 ≤ c.MaxAreaM2)
      ∧ (derive r c n).spawnpoints
          = (match st.GetSpawnpointsCount g with
             | .ok k => IntFrom k
             | .error _ => n.Spawnpoints) := by
  have ha := areaStep_init r n
  have hstep := spawnpointStep_queries r c (areaStep r (init n))
  rw [ha.1, ha.2.2.1] at hstep
  have hcond : (areaStep r (init n)).m2.Valid = true
      ∧ (c.MaxAreaM2 ≤ 0 ∨ (areaStep r (init n)).m2.Float64 ≤ c.MaxAreaM2)
      ∧ (n.Spawnpoints.Valid = false ∨ c.ForceSpawnpointsRefresh = true)
      ∧ r.golbatDBStore.isSome = true := by
    by_contra hno
    have hsame : derive r c n = areaStep r (init n) := hstep.1 hno
    rw [hsame, ha.2.2.1] at hg
    simp at hg
  rcases hstep.2 with h | ⟨st, g', hst, h, hm, hs⟩
  · have h2 : countQueriesOf (derive r c n).calls = [] := h
    rw [h2] at hg
    simp at hg
  · have h2 : countQueriesOf (derive r c n).calls = [] ++ [g'] := h
    rw [h2] at hg
    simp only [List.nil_append, List.mem_singleton] at hg
    subst hg
    have hm2 : (derive r c n).m2 = (areaStep r (init n)).m2 := hm
    refine ⟨st, hst, hm2, ?_, ?_, hs⟩
    · rw [hm2]
      exact hcond.1
    · rw [hm2]
      exact hcond.2.1

theorem derive_m2_of_parsed (r : DBRefresher) (c : RefreshNestConfig) (n : Nest) (g : Geometry)
    (hv : n.M2.Valid = true) (hg : n.Geometry r = .ok g) : (derive r c n).m2 = n.M2 := by
  unfold derive
  have ha := areaStep_init r n
  have hA : areaStep r (init n) = init n := by
    unfold areaStep
    simp [init, hv]
  rw [hA]
  unfold spawnpointStep
  split
  · split
    · rfl
    · split
      · rw [(querySpawnpoints_status _ _ _).2.2.2.2]
        rfl
      · have hg2 : (init n).nest.Geometry r = .ok g := hg
        rw [hg2]
        simp only
        rw [(querySpawnpoints_status _ _ _).2.2.2.2]
        rfl
  · rfl

theorem derive_of_skip (r : DBRefresher) (c : RefreshNestConfig) (n : Nest)
    (hv : n.M2.Valid = true)
    (hskip : ¬ ((c.MaxAreaM2 ≤ 0 ∨ n.M2.Float64 ≤ c.MaxAreaM2)
        ∧ (n.Spawnpoints.Valid = false ∨ c.ForceSpawnpointsRefresh = true)
        ∧ r.golbatDBStore.isSome = true)) :
    (derive r c n).m2 = n.M2 ∧ (derive r c n).spawnpoints = n.Spawnpoints := by
  have ha := areaStep_init r n
  have hstep := (spawnpointStep_queries r c (areaStep r (init n))).1
  rw [ha.1, (ha.2.2.2.1 hv).1] at hstep
  have hsame : derive r c n = areaStep r (init n) := hstep (fun h => hskip h.2)
  rw [hsame]
  exact ⟨(ha.2.2.2.1 hv).1, ha.1⟩

/-- The area and count after the spawnpoint step depend on the nest only through its
polygon, cached area and cached count. -/
theorem derive_congr (r : DBRefresher) (c : RefreshNestConfig) (n1 n2 : Nest)
    (hpoly : n1.Polygon = n2.Polygon) (hm : n1.M2 = n2.M2)
    (hs : n1.Spawnpoints = n2.Spawnpoints) :
    (derive r c n1).m2 = (derive r c n2).m2
      ∧ (derive r c n1).spawnpoints = (derive r c n2).spawnpoints
      ∧ (derive r c n1).calls = (derive r c n2).calls := by
  have harea : ∀ s : Locals, ∀ n' : Nest, n'.Polygon = s.nest.Polygon →
      areaStep r { s with nest := n' } = { areaStep r s with nest := n' } := by
    intro s n' h
    unfold areaStep
    simp only [Nest.Geometry, h]
    split
    · split <;> rfl
    · rfl
  have hquery : ∀ (st : GolbatDBStore) (g : Geometry) (s : Locals) (n' : Nest),
      querySpawnpoints st g { s with nest := n' } = { querySpawnpoints st g s with nest := n' } := by
    intro st g s n'
    unfold querySpawnpoints
    split <;> rfl
  have hspawn : ∀ s : Locals, ∀ n' : Nest, n'.Polygon = s.nest.Polygon →
      spawnpointStep r c { s with nest := n' } = { spawnpointStep r c s with nest := n' } := by
    intro s n' h
    unfold spawnpointStep
    simp only [Nest.Geometry, h]
    split
    · split
      · rfl
      · split
        · exact hquery _ _ _ _
        · split
          · rename_i st _ _ _ _ g _
            exact hquery st g
              { s with jsonGeometry := some g, calls := s.calls ++ [Call.Geometry] } n'
          · rfl
    · rfl
  have hinit : init n1 = { init n2 with nest := n1 } := by
    simp [init, hm, hs]
  have hd : derive r c n1 = { derive r c n2 with nest := n1 } := by
    unfold derive
    rw [hinit, harea _ _ (by simpa [init] using hpoly)]
    rw [hspawn _ _ (by rw [(areaStep_status r (init n2)).2.2.1]; simpa [init] using hpoly)]
  rw [hd]
  exact ⟨rfl, rfl, rfl⟩

end Frame

open refreshNest

/-! ## Classification -/

/-- C1: the `active` and `discarded` values `refreshNest` computes are the specification's
precedence rule applied to the area and the spawnpoint count held after the area and
spawnpoint steps (unknown area: "invalid"; area below the minimum or above a positive
maximum: "area"; known count below the minimum: "spawnpoints"; otherwise active with no
discard reason), and those are the area and count the call ends with. -/
theorem C1_classification_precedence (refresher : DBRefresher) (config : RefreshNestConfig)
    (nest : Nest) :
    (refreshNest refresher config nest).locals.m2
        = (refreshNest.derive refresher config nest).m2
      ∧ (refreshNest refresher config nest).locals.spawnpoints
        = (refreshNest.derive refresher config nest).spawnpoints
      ∧ ((refreshNest refresher config nest).locals.active,
          (refreshNest refresher config nest).locals.discarded)
        = classifySpec config (refreshNest.derive refresher config nest).m2
            (refreshNest.derive refresher config nest).spawnpoints := by
  have h := refreshNest_locals refresher config nest
  have p := policy_classification refresher config nest
  refine ⟨h.2.2.1.trans p.1, h.2.2.2.trans p.2.1, ?_⟩
  rw [h.1, h.2.1]
  exact p.2.2

/-! ## The partial update -/

/-- C2: evaluation at a fresh nest (everything unknown, polygon of 1000 m², minimum area
500, no golbat, writes succeed). The call succeeds and the returned nest has area 1000
and is active, yet the one update handed to `UpdateNestPartial` carries only `active`
and `updated`: the changed area is missing from it. -/
theorem C2_changed_area_missing_from_update :
    (refreshNest (scenarioRefresher okStore none) (scenarioConfig 500 0) freshNest).err = none
      ∧ (refreshNest (scenarioRefresher okStore none) (scenarioConfig 500 0) freshNest).nest.M2
          = FloatFrom 1000
      ∧ freshNest.M2.Valid = false
      ∧ updatesOf
          (refreshNest (scenarioRefresher okStore none) (scenarioConfig 500 0) freshNest).locals.calls
          = [(1, ⟨none, none, none, some true, none, some (IntFrom 1700000000)⟩)] := by
  decide

/-- C3: evaluation at an active nest with pokemon id 25 and cached area 50 under minimum
area 100. The nest is classified not active, and the one update handed to
`UpdateNestPartial` clears the pokemon id but carries neither `active` nor `discarded`. -/
theorem C3_deactivation_update_omits_active :
    taggedNest.PokemonId = IntFrom 25 ∧ taggedNest.Active = BoolFrom true
      ∧ (refreshNest (scenarioRefresher okStore none) (scenarioConfig 100 0) taggedNest).locals.active
          = BoolFrom false
      ∧ updatesOf
          (refreshNest (scenarioRefresher okStore none) (scenarioConfig 100 0) taggedNest).locals.calls
          = [(2, ⟨none, none, none, none, some ⟨25, false⟩, some (IntFrom 1700000000)⟩)] := by
  decide

/-- C4: every field other than `updated` that is present in a partial update handed to
`UpdateNestPartial` differs (in the sense of `Equal`, two unknowns being equal) from the
input nest's value of that field. -/
theorem C4_update_fields_all_changed (refresher : DBRefresher) (config : RefreshNestConfig)
    (nest : Nest) (id : Int) (pu : NestPartialUpdate)
    (h : (id, pu) ∈ updatesOf (refreshNest refresher config nest).locals.calls) :
    (∀ d, pu.Discarded = some d → d.Equal nest.Discarded = false)
      ∧ (∀ a, pu.M2 = some a → a.Equal nest.M2 = false)
      ∧ (∀ c, pu.Spawnpoints = some c → c.Equal nest.Spawnpoints = false)
      ∧ (∀ b, pu.Active = some b → (BoolFrom b).Equal nest.Active = false)
      ∧ (∀ p, pu.PokemonId = some p → p.Equal nest.PokemonId = false) := by
  rw [refreshNest_updates] at h
  unfold refreshNest.evaluate at h
  rw [diff_partialUpdate, (policy_start refresher config nest).1,
    (policy_start refresher config nest).2.1] at h
  split_ifs at h with h1 h2 h3 h4 h5
  · simp only [List.mem_singleton, Prod.mk.injEq] at h
    obtain ⟨_, h⟩ := h
    subst h
    simp [NestPartialUpdate.empty, NullInt.Equal, h1.2]
  · simp only [List.mem_singleton, Prod.mk.injEq] at h
    obtain ⟨_, h⟩ := h
    subst h
    simp only [NestPartialUpdate.empty]
    refine ⟨by simp, by simp, by simp, ?_, by simp⟩
    intro b hb
    rw [BoolFrom_of_Ptr _ b hb]
    exact h2
  · simp only [List.mem_singleton, Prod.mk.injEq] at h
    obtain ⟨_, h⟩ := h
    subst h
    simp [NestPartialUpdate.empty, h3]
  · simp only [List.mem_singleton, Prod.mk.injEq] at h
    obtain ⟨_, h⟩ := h
    subst h
    simp [NestPartialUpdate.empty, h4]
  · simp only [List.mem_singleton, Prod.mk.injEq] at h
    obtain ⟨_, h⟩ := h
    subst h
    simp [NestPartialUpdate.empty, h5]
  · simp at h

/-- C4 at the fresh nest: the update that is written carries `active = true`, which differs
from the nest's unknown `active`. -/
theorem C4_update_fields_all_changed_witness :
    ((1, ⟨none, none, none, some true, none, some (IntFrom 1700000000)⟩) :
          Int × NestPartialUpdate)
        ∈ updatesOf
          (refreshNest (scenarioRefresher okStore none) (scenarioConfig 500 0) freshNest).locals.calls
      ∧ ∀ b, some true = some b → (BoolFrom b).Equal freshNest.Active = false :=
  ⟨by decide,
    (C4_update_fields_all_changed (scenarioRefresher okStore none) (scenarioConfig 500 0)
      freshNest 1 ⟨none, none, none, some true, none, some (IntFrom 1700000000)⟩
      (by decide)).2.2.2.1⟩

/-! ## Idempotence -/

/-- C5 as stated fails: when the area computed for the fresh nest is NaN, the nest returned
without error carries a valid NaN area, which is not `Equal` to itself; refreshing it
again issues a write of the area, and that write's error is returned. -/
theorem C5_nan_area_is_rewritten :
    ¬ ∀ (r : DBRefresher) (store : NestsDBStore) (now : Int) (c : RefreshNestConfig) (n : Nest),
        (refreshNest r c n).err = none →
          updatesOf (refreshNest { r with nestsDBStore := store, Now := now } c
              (refreshNest r c n).nest).locals.calls = []
            ∧ (refreshNest { r with nestsDBStore := store, Now := now } c
                (refreshNest r c n).nest).err = none := by
  intro h
  have h1 := h (nanAreaRefresher okStore none) failingStore 1700000999 (scenarioConfig 500 0)
    freshNest (by decide)
  revert h1
  decide

/-- C5, amended: if `refreshNest` returns a nest without error and the area it ends with is
not NaN, then refreshing that nest again with the same configuration and the same
geometry, area and count answers (the clock and the nest store may differ) computes the
same classification, area and count, builds no partial update, issues no write, and
returns that nest unchanged with no error. -/
theorem C5_refreshNest_idempotent (r : DBRefresher) (store : NestsDBStore) (now : Int)
    (c : RefreshNestConfig) (n : Nest) (h : (refreshNest r c n).err = none)
    (hnan : ¬ ((refreshNest r c n).locals.m2.Valid = true
                ∧ (refreshNest r c n).locals.m2.Float64 = float64.nan)) :
    (refreshNest { r with nestsDBStore := store, Now := now } c (refreshNest r c n).nest).locals.active
        = (refreshNest r c n).locals.active
      ∧ (refreshNest { r with nestsDBStore := store, Now := now } c
            (refreshNest r c n).nest).locals.discarded
        = (refreshNest r c n).locals.discarded
      ∧ (refreshNest { r with nestsDBStore := store, Now := now } c
            (refreshNest r c n).nest).locals.m2
        = (refreshNest r c n).locals.m2
      ∧ (refreshNest { r with nestsDBStore := store, Now := now } c
            (refreshNest r c n).nest).locals.spawnpoints
        = (refreshNest r c n).locals.spawnpoints
      ∧ (refreshNest { r with nestsDBStore := store, Now := now } c
            (refreshNest r c n).nest).locals.partialUpdate = none
      ∧ updatesOf (refreshNest { r with nestsDBStore := store, Now := now } c
            (refreshNest r c n).nest).locals.calls = []
      ∧ (refreshNest { r with nestsDBStore := store, Now := now } c (refreshNest r c n).nest).nest
        = (refreshNest r c n).nest
      ∧ (refreshNest { r with nestsDBStore := store, Now := now } c (refreshNest r c n).nest).err
        = none := by
  obtain ⟨u, hu⟩ := refreshNest_ok_nest r c n h
  have hset := evaluate_nest_settled r c n
  have hl := refreshNest_locals r c n
  rw [hl.2.2.1] at hnan
  generalize (refreshNest r c n).nest = n' at hu ⊢
  have hpoly : n'.Polygon = n.Polygon := by rw [hu]; exact hset.1
  have hm : n'.M2 = (policy r c n).m2 := by rw [hu]; exact hset.2.1
  have hs : n'.Spawnpoints = (policy r c n).spawnpoints := by rw [hu]; exact hset.2.2.1
  have hd : (policy r c n).discarded.Equal n'.Discarded = true := by rw [hu]; exact hset.2.2.2.1
  have ha : (policy r c n).active.Equal n'.Active = true := by rw [hu]; exact hset.2.2.2.2.1
  have hk : ¬ ((policy r c n).active.BoolVal = false ∧ n'.PokemonId.Valid = true) := by
    rw [hu]; exact hset.2.2.2.2.2
  have hp2 := policy_of_settled r store now c n n' hpoly hm hs
  have hl2 := refreshNest_locals { r with nestsDBStore := store, Now := now } c n'
  have hnone : (evaluate { r with nestsDBStore := store, Now := now } c n').partialUpdate
      = none := by
    rw [evaluate_partialUpdate_eq_none, hp2.1, hp2.2.1, hp2.2.2.1, hp2.2.2.2, ← hm, ← hs]
    exact ⟨hd, NullFloat_Equal_refl _ (by rw [hm]; exact hnan), NullInt_Equal_refl _, ha, hk⟩
  have hupd := refreshNest_updates { r with nestsDBStore := store, Now := now } c n'
  rw [hnone] at hupd
  rcases refreshNest_result { r with nestsDBStore := store, Now := now } c n' with
    ⟨_, hnest, herr, hloc⟩ | ⟨pu, hpu, _⟩
  · refine ⟨?_, ?_, ?_, ?_, ?_, hupd, hnest, herr⟩
    · rw [hl2.1, hp2.2.2.1, hl.1]
    · rw [hl2.2.1, hp2.2.2.2, hl.2.1]
    · rw [hl2.2.2.1, hp2.1, hl.2.2.1]
    · rw [hl2.2.2.2, hp2.2.1, hl.2.2.2]
    · rw [hloc, hnone]
  · rw [hnone] at hpu
    cases hpu


/-- C5 at the fresh nest with golbat answering 3 (below the minimum of 10): the first call
writes, the second call, against a store whose writes fail, returns the same nest. -/
theorem C5_refreshNest_idempotent_witness :
    (refreshNest (scenarioRefresher okStore (some okGolbat)) (scenarioConfig 500 0) freshNest).err
        = none
      ∧ (refreshNest
            { scenarioRefresher okStore (some okGolbat) with
              nestsDBStore := failingStore, Now := 1700000999 }
            (scenarioConfig 500 0)
            (refreshNest (scenarioRefresher okStore (some okGolbat)) (scenarioConfig 500 0)
              freshNest).nest).nest
        = (refreshNest (scenarioRefresher okStore (some okGolbat)) (scenarioConfig 500 0)
            freshNest).nest
      ∧ (refreshNest
            { scenarioRefresher okStore (some okGolbat) with
              nestsDBStore := failingStore, Now := 1700000999 }
            (scenarioConfig 500 0)
            (refreshNest (scenarioRefresher okStore (some okGolbat)) (scenarioConfig 500 0)
              freshNest).nest).err
        = none :=
  ⟨by decide,
    (C5_refreshNest_idempotent (scenarioRefresher okStore (some okGolbat)) failingStore
      1700000999 (scenarioConfig 500 0) freshNest (by decide) (by decide)).2.2.2.2.2.2⟩

/-! ## Invalid geometry -/

/-- C6 as stated fails: a nest whose polygon does not parse but whose cached area is known
is classified from the cached values when the spawnpoint step does not run; here it is
classified active. -/
theorem C6_unparsable_geometry_not_always_invalid :
    ¬ ∀ (r : DBRefresher) (c : RefreshNestConfig) (n : Nest),
        (∃ e, n.Geometry r = .error e) →
          (refreshNest r c n).locals.discarded = StringFrom "invalid"
            ∧ (refreshNest r c n).locals.active = BoolFrom false := by
  intro h
  have h1 := h (scenarioRefresher okStore none) (scenarioConfig 500 0) staleNest
    ⟨"invalid geometry", rfl⟩
  revert h1
  decide

theorem derive_m2_of_unparsable (r : DBRefresher) (c : RefreshNestConfig) (n : Nest)
    (hbad : ∃ e, n.Geometry r = .error e)
    (hparsed : n.M2.Valid = false
      ∨ ((c.MaxAreaM2 ≤ 0 ∨ n.M2.Float64 ≤ c.MaxAreaM2)
          ∧ (n.Spawnpoints.Valid = false ∨ c.ForceSpawnpointsRefresh = true)
          ∧ r.golbatDBStore.isSome = true)) :
    (derive r c n).m2.Valid = false := by
  obtain ⟨e, he⟩ := hbad
  cases hv : n.M2.Valid with
  | false =>
    simp [derive, areaStep, spawnpointStep, init, he, hv]
  | true =>
    rw [hv] at hparsed
    rcases hparsed with hc | ⟨hmax, hsp, hg⟩
    · cases hc
    · cases hgol : r.golbatDBStore with
      | none => simp [hgol] at hg
      | some golbat =>
        simp [derive, areaStep, spawnpointStep, init, he, hv, hmax, hsp, hgol]

/-- C6, amended: a nest whose polygon does not parse is classified "invalid" and not active
whenever the call parses the polygon, that is when the cached area is unknown, or when
the spawnpoint step runs (cached area within the maximum, count unknown or refresh
forced, golbat configured). -/
theorem C6_unparsable_geometry_invalid_when_parsed (r : DBRefresher) (c : RefreshNestConfig)
    (n : Nest) (hbad : ∃ e, n.Geometry r = .error e)
    (hparsed : n.M2.Valid = false
      ∨ ((c.MaxAreaM2 ≤ 0 ∨ n.M2.Float64 ≤ c.MaxAreaM2)
          ∧ (n.Spawnpoints.Valid = false ∨ c.ForceSpawnpointsRefresh = true)
          ∧ r.golbatDBStore.isSome = true)) :
    (refreshNest r c n).locals.discarded = StringFrom "invalid"
      ∧ (refreshNest r c n).locals.active = BoolFrom false
      ∧ (refreshNest r c n).locals.m2.Valid = false := by
  have hl := refreshNest_locals r c n
  have hp := policy_classification r c n
  have hm := derive_m2_of_unparsable r c n hbad hparsed
  have hcl := hp.2.2
  simp only [classifySpec, hm, if_true] at hcl
  rw [hl.1, hl.2.1, hl.2.2.1, hp.1]
  exact ⟨congrArg Prod.snd hcl, congrArg Prod.fst hcl, hm⟩

/-- C6 (amended) at a nest with unknown area whose polygon does not parse. -/
theorem C6_unparsable_geometry_invalid_when_parsed_witness :
    (∃ e, brokenNest.Geometry (scenarioRefresher okStore none) = .error e)
      ∧ brokenNest.M2.Valid = false
      ∧ (refreshNest (scenarioRefresher okStore none) (scenarioConfig 500 0)
            brokenNest).locals.discarded = StringFrom "invalid"
      ∧ (refreshNest (scenarioRefresher okStore none) (scenarioConfig 500 0)
            brokenNest).locals.active = BoolFrom false
      ∧ (refreshNest (scenarioRefresher okStore none) (scenarioConfig 500 0)
            brokenNest).locals.m2.Valid = false :=
  ⟨⟨"invalid geometry", rfl⟩, rfl,
    C6_unparsable_geometry_invalid_when_parsed (scenarioRefresher okStore none)
      (scenarioConfig 500 0) brokenNest ⟨"invalid geometry", rfl⟩ (Or.inl rfl)⟩

/-! ## `RefreshAllNests` and the overlap pass -/

/-- C7 as stated fails: with `MaxOverlapPercent = 0` and an iteration that completes
without error the overlap pass is run, with threshold 0. -/
theorem C7_overlap_pass_runs_at_zero :
    okStore.IterateNestsConcurrently
        { Concurrency := ({ scenarioConfig 500 0 with MaxOverlapPercent := 0 }).Concurrency
          IncludePolygon := true }
        (fun nest => (refreshNest (scenarioRefresher okStore none)
          { scenarioConfig 500 0 with MaxOverlapPercent := 0 } nest).err) = none
      ∧ ¬ ((0 : float64) < ({ scenarioConfig 500 0 with MaxOverlapPercent := 0 }).MaxOverlapPercent)
      ∧ overlapPassesOf (RefreshAllNests (scenarioRefresher okStore none)
          { scenarioConfig 500 0 with MaxOverlapPercent := 0 }).2 = [0]
      ∧ (RefreshAllNests (scenarioRefresher okStore none)
          { scenarioConfig 500 0 with MaxOverlapPercent := 0 }).1 = none := by
  decide

/-- C7, amended: when the per-nest iteration completes without error, `RefreshAllNests`
skips the overlap pass exactly when `MaxOverlapPercent < 0` or `MaxOverlapPercent ≥ 100`,
and then returns no error; otherwise it invokes the pass once with the configured
threshold, in particular for every `0 ≤ MaxOverlapPercent < 100` (and for NaN, for which
neither comparison holds). -/
theorem C7_overlap_pass_gate (r : DBRefresher) (c : RefreshNestConfig)
    (hiter : r.nestsDBStore.IterateNestsConcurrently
        { Concurrency := c.Concurrency, IncludePolygon := true }
        (fun nest => (refreshNest r c nest).err) = none) :
    overlapPassesOf (RefreshAllNests r c).2
        = (if c.MaxOverlapPercent < 0 ∨ c.MaxOverlapPercent ≥ 100 then []
           else [c.MaxOverlapPercent])
      ∧ ((c.MaxOverlapPercent < 0 ∨ c.MaxOverlapPercent ≥ 100)
          → (RefreshAllNests r c).1 = none)
      ∧ (0 ≤ c.MaxOverlapPercent ∧ c.MaxOverlapPercent < 100
          → overlapPassesOf (RefreshAllNests r c).2 = [c.MaxOverlapPercent]) := by
  have hrange : 0 ≤ c.MaxOverlapPercent ∧ c.MaxOverlapPercent < 100 →
      ¬ (c.MaxOverlapPercent < 0 ∨ c.MaxOverlapPercent ≥ 100) := by
    rintro ⟨h0, h100⟩ (h | h)
    · exact float64.not_lt_of_le _ _ h0 h
    · exact float64.not_le_of_lt _ _ h100 h
  unfold RefreshAllNests
  simp only [hiter]
  by_cases hskip : c.MaxOverlapPercent < 0 ∨ c.MaxOverlapPercent ≥ 100
  · rw [if_pos hskip, if_pos hskip]
    refine ⟨by simp [overlapPassesOf], fun _ => rfl, fun h => absurd hskip (hrange h)⟩
  · rw [if_neg hskip, if_neg hskip]
    cases r.nestsDBStore.DisableOverlappingNests c.MaxOverlapPercent <;>
      simp [overlapPassesOf, hskip]

/-- C7 (amended) at threshold 60: the pass runs once with threshold 60. -/
theorem C7_overlap_pass_gate_witness :
    okStore.IterateNestsConcurrently
        { Concurrency := (scenarioConfig 500 0).Concurrency, IncludePolygon := true }
        (fun nest => (refreshNest (scenarioRefresher okStore none) (scenarioConfig 500 0)
          nest).err) = none
      ∧ ((0 : float64) ≤ (scenarioConfig 500 0).MaxOverlapPercent
          ∧ (scenarioConfig 500 0).MaxOverlapPercent < 100)
      ∧ overlapPassesOf
          (RefreshAllNests (scenarioRefresher okStore none) (scenarioConfig 500 0)).2
        = [(scenarioConfig 500 0).MaxOverlapPercent] :=
  ⟨by decide, by decide,
    (C7_overlap_pass_gate (scenarioRefresher okStore none) (scenarioConfig 500 0)
      (by decide)).2.2 (by decide)⟩

/-! ## Status invariant, failed writes and the `updated` stamp -/

theorem classifySpec_status (c : RefreshNestConfig) (a : NullFloat) (k : NullInt) :
    (classifySpec c a k).1.Valid = true
      ∧ ((classifySpec c a k).1.BoolVal = true ↔ (classifySpec c a k).2.Valid = false) := by
  unfold classifySpec
  split_ifs <;> simp [BoolFrom, StringFrom, NullString.zero]

theorem policy_status (r : DBRefresher) (c : RefreshNestConfig) (n : Nest) :
    (policy r c n).active.Valid = true
      ∧ ((policy r c n).active.BoolVal = true ↔ (policy r c n).discarded.Valid = false) := by
  have hp := (policy_classification r c n).2.2
  have hs := classifySpec_status c (derive r c n).m2 (derive r c n).spawnpoints
  rw [← hp] at hs
  exact hs

theorem NullBool.eq_of_Equal_valid (a b : NullBool) (h : a.Equal b = true) (ha : a.Valid = true) :
    b.Valid = true ∧ b.BoolVal = a.BoolVal := by
  cases a with
  | mk av aval =>
    cases b with
    | mk bv bval =>
      simp only at ha
      subst ha
      simp [NullBool.Equal] at h
      simp [h.1, h.2]

theorem NullString.valid_of_Equal (a b : NullString) (h : a.Equal b = true) :
    b.Valid = a.Valid := by
  simp [NullString.Equal] at h
  exact h.1.symm

/-- C8: the status `refreshNest` computes has `active` known and is active exactly when no
discard reason is set; the same holds of the nest it returns whenever it returns
without error. -/
theorem C8_active_iff_not_discarded (r : DBRefresher) (c : RefreshNestConfig) (n : Nest) :
    ((refreshNest r c n).locals.active.Valid = true
        ∧ ((refreshNest r c n).locals.active.BoolVal = true
            ↔ (refreshNest r c n).locals.discarded.Valid = false))
      ∧ ((refreshNest r c n).err = none →
          (refreshNest r c n).nest.Active.Valid = true
            ∧ ((refreshNest r c n).nest.Active.BoolVal = true
                ↔ (refreshNest r c n).nest.Discarded.Valid = false)) := by
  have hl := refreshNest_locals r c n
  have hs := policy_status r c n
  refine ⟨by rw [hl.1, hl.2.1]; exact hs, ?_⟩
  intro h
  obtain ⟨u, hu⟩ := refreshNest_ok_nest r c n h
  have hset := evaluate_nest_settled r c n
  have ha := NullBool.eq_of_Equal_valid _ _ hset.2.2.2.2.1 hs.1
  have hd := NullString.valid_of_Equal _ _ hset.2.2.2.1
  rw [hu]
  show (evaluate r c n).nest.Active.Valid = true
    ∧ ((evaluate r c n).nest.Active.BoolVal = true ↔ (evaluate r c n).nest.Discarded.Valid = false)
  rw [ha.1, ha.2, hd]
  exact ⟨rfl, hs.2⟩

/-- C8 at the fresh nest, whose refresh returns without error. -/
theorem C8_active_iff_not_discarded_witness :
    (refreshNest (scenarioRefresher okStore none) (scenarioConfig 500 0) freshNest).err = none
      ∧ (refreshNest (scenarioRefresher okStore none) (scenarioConfig 500 0)
            freshNest).nest.Active.Valid = true
      ∧ ((refreshNest (scenarioRefresher okStore none) (scenarioConfig 500 0)
            freshNest).nest.Active.BoolVal = true
          ↔ (refreshNest (scenarioRefresher okStore none) (scenarioConfig 500 0)
              freshNest).nest.Discarded.Valid = false) :=
  ⟨by decide,
    (C8_active_iff_not_discarded (scenarioRefresher okStore none) (scenarioConfig 500 0)
      freshNest).2 (by decide)⟩

/-- C9: if the write handed to `UpdateNestPartial` fails, `refreshNest` returns that error
together with the input nest, unchanged in every field. -/
theorem C9_failed_write_returns_original (r : DBRefresher) (c : RefreshNestConfig) (n : Nest)
    (id : Int) (pu : NestPartialUpdate) (e : String)
    (hw : (id, pu) ∈ updatesOf (refreshNest r c n).locals.calls)
    (hfail : r.nestsDBStore.UpdateNestPartial id pu = some e) :
    (refreshNest r c n).nest = n ∧ (refreshNest r c n).err = some e := by
  rw [refreshNest_updates] at hw
  rcases refreshNest_result r c n with
    ⟨hn, _, _, _⟩ | ⟨pu0, hpu0, ⟨e0, hf0, hnest, herr⟩ | ⟨hok, _, _⟩⟩
  · rw [hn] at hw
    simp at hw
  · rw [hpu0] at hw
    simp only [List.mem_singleton, Prod.mk.injEq] at hw
    obtain ⟨hid, hpu⟩ := hw
    subst hid hpu
    rw [hf0] at hfail
    cases hfail
    exact ⟨hnest, herr⟩
  · rw [hpu0] at hw
    simp only [List.mem_singleton, Prod.mk.injEq] at hw
    obtain ⟨hid, hpu⟩ := hw
    subst hid hpu
    rw [hok] at hfail
    cases hfail

/-- C9 at the fresh nest against a store whose write fails. -/
theorem C9_failed_write_returns_original_witness :
    ((1, ⟨none, none, none, some true, none, some (IntFrom 1700000000)⟩) :
          Int × NestPartialUpdate)
        ∈ updatesOf (refreshNest (scenarioRefresher failingStore none) (scenarioConfig 500 0)
            freshNest).locals.calls
      ∧ (refreshNest (scenarioRefresher failingStore none) (scenarioConfig 500 0) freshNest).nest
          = freshNest
      ∧ (refreshNest (scenarioRefresher failingStore none) (scenarioConfig 500 0) freshNest).err
          = some "write failed" :=
  ⟨by decide,
    C9_failed_write_returns_original (scenarioRefresher failingStore none) (scenarioConfig 500 0)
      freshNest 1 ⟨none, none, none, some true, none, some (IntFrom 1700000000)⟩ "write failed"
      (by decide) rfl⟩

theorem Nest.sameAttributes_refl (n : Nest)
    (hnan : ¬ (n.M2.Valid = true ∧ n.M2.Float64 = float64.nan)) :
    n.sameAttributes n = true := by
  simp [Nest.sameAttributes, NullString_Equal_refl, NullFloat_Equal_refl _ hnan,
    NullInt_Equal_refl, NullBool_Equal_refl]

theorem Nest.identicalAttributes_refl (n : Nest) : n.identicalAttributes n = true := by
  simp [Nest.identicalAttributes]

/-- Identical attribute records compare `Equal` unless the area is a valid NaN. -/
theorem Nest.sameAttributes_of_identical (a b : Nest)
    (h : a.identicalAttributes b = true)
    (hnan : ¬ (b.M2.Valid = true ∧ b.M2.Float64 = float64.nan)) :
    a.sameAttributes b = true := by
  simp only [Nest.identicalAttributes, decide_eq_true_eq] at h
  obtain ⟨hd, hm, hs, ha, hp⟩ := h
  simp only [Nest.sameAttributes, hd, hm, hs, ha, hp]
  exact Nest.sameAttributes_refl b hnan

/-- A non-empty diff leaves the locals' nest different from the input nest in at least
one attribute. -/
theorem evaluate_nest_differs (r : DBRefresher) (c : RefreshNestConfig) (n : Nest) (u : NullInt)
    (h : (evaluate r c n).partialUpdate ≠ none) :
    Nest.sameAttributes { (evaluate r c n).nest with Updated := u } n = false := by
  by_contra hsame
  apply h
  rw [evaluate_partialUpdate_eq_none]
  simp only [Nest.sameAttributes, evaluate_nest, Bool.not_eq_false, Bool.and_eq_true] at hsame
  obtain ⟨⟨⟨⟨hd, hm⟩, hs⟩, ha⟩, hp⟩ := hsame
  refine ⟨?_, ?_, ?_, ?_, ?_⟩
  · by_contra hq
    rw [if_neg hq] at hd
    exact hq hd
  · by_contra hq
    rw [if_neg hq] at hm
    exact hq hm
  · by_contra hq
    rw [if_neg hq] at hs
    exact hq hs
  · by_contra hq
    rw [if_neg hq] at ha
    exact hq ha
  · intro hq
    rw [if_pos hq] at hp
    simp [NullInt.Equal, hq.2] at hp

/-- C10 as stated fails: for a nest whose cached area is a valid NaN and whose other
attributes already match, the area compares different from itself, so a write of the area
is issued and the returned nest has `Updated` set to the current time although its
discarded, area, spawnpoints, active and pokemon id are identical to the input's; and when
that write fails, the input nest comes back with its own `Updated` although its area
does not compare `Equal` to the input's. -/
theorem C10_nan_cached_area_refreshes_updated :
    ((refreshNest (scenarioRefresher okStore none) (scenarioConfig 500 0)
          nanAreaNest).nest.identicalAttributes nanAreaNest = true
        ∧ (refreshNest (scenarioRefresher okStore none) (scenarioConfig 500 0)
            nanAreaNest).nest.Updated = IntFrom 1700000000
        ∧ nanAreaNest.Updated = IntFrom 1600000000
        ∧ updatesOf (refreshNest (scenarioRefresher okStore none) (scenarioConfig 500 0)
            nanAreaNest).locals.calls
          = [(7, ⟨none, some (FloatFrom float64.nan), none, none, none,
                some (IntFrom 1700000000)⟩)])
      ∧ ((refreshNest (scenarioRefresher failingStore none) (scenarioConfig 500 0)
            nanAreaNest).nest = nanAreaNest
        ∧ (refreshNest (scenarioRefresher failingStore none) (scenarioConfig 500 0)
            nanAreaNest).nest.sameAttributes nanAreaNest = false
        ∧ (refreshNest (scenarioRefresher failingStore none) (scenarioConfig 500 0)
            nanAreaNest).nest.Updated ≠ IntFrom 1700000000) := by
  decide

/-- C10, amended: for a nest whose cached area is not NaN, the returned nest's `Updated` is
the current time when the returned nest differs from the input nest in at least one of
discarded, area, spawnpoints, active or pokemon id (whether the records are compared with
`Equal` or for identity), and the input's `Updated` otherwise. For every nest, a write is
issued exactly when one of the computed values compares different from the input nest
or the pokemon id has to be cleared, and every issued write carries `Updated` set to the
current time. -/
theorem C10_updated_iff_changed (r : DBRefresher) (c : RefreshNestConfig) (n : Nest) :
    (¬ (n.M2.Valid = true ∧ n.M2.Float64 = float64.nan) →
        (refreshNest r c n).nest.Updated
            = (if (refreshNest r c n).nest.sameAttributes n = true then n.Updated
               else IntFrom r.Now)
          ∧ (refreshNest r c n).nest.Updated
            = (if (refreshNest r c n).nest.identicalAttributes n = true then n.Updated
               else IntFrom r.Now))
      ∧ (updatesOf (refreshNest r c n).locals.calls = [] ↔
          ((refreshNest r c n).locals.discarded.Equal n.Discarded = true
            ∧ (refreshNest r c n).locals.m2.Equal n.M2 = true
            ∧ (refreshNest r c n).locals.spawnpoints.Equal n.Spawnpoints = true
            ∧ (refreshNest r c n).locals.active.Equal n.Active = true
            ∧ ¬ ((refreshNest r c n).locals.active.BoolVal = false
                  ∧ n.PokemonId.Valid = true)))
      ∧ (∀ id pu, (id, pu) ∈ updatesOf (refreshNest r c n).locals.calls →
          pu.Updated = some (IntFrom r.Now)) := by
  have hl := refreshNest_locals r c n
  have hupd := refreshNest_updates r c n
  refine ⟨?_, ?_, ?_⟩
  · intro hnan
    rcases refreshNest_result r c n with
      ⟨_, hnest, _, _⟩ | ⟨pu0, hpu0, ⟨e0, _, hnest, _⟩ | ⟨_, hnest, _⟩⟩
    · rw [hnest, if_pos (Nest.sameAttributes_refl n hnan),
        if_pos (Nest.identicalAttributes_refl n)]
      exact ⟨rfl, rfl⟩
    · rw [hnest, if_pos (Nest.sameAttributes_refl n hnan),
        if_pos (Nest.identicalAttributes_refl n)]
      exact ⟨rfl, rfl⟩
    · have hne : (evaluate r c n).partialUpdate ≠ none := by
        rw [hpu0]
        exact Option.some_ne_none _
      have hd := evaluate_nest_differs r c n (IntFrom r.Now) hne
      have hi : Nest.identicalAttributes
          { (evaluate r c n).nest with Updated := IntFrom r.Now } n = false := by
        by_contra hcon
        have hid : Nest.identicalAttributes
            { (evaluate r c n).nest with Updated := IntFrom r.Now } n = true := by
          simpa using hcon
        have hsame := Nest.sameAttributes_of_identical _ n hid hnan
        rw [hd] at hsame
        cases hsame
      rw [hnest, hd, hi]
      simp
  · rw [hl.1, hl.2.1, hl.2.2.1, hl.2.2.2, ← evaluate_partialUpdate_eq_none, hupd]
    cases (evaluate r c n).partialUpdate <;> simp
  · intro id pu hmem
    rw [hupd] at hmem
    cases hpu0 : (evaluate r c n).partialUpdate with
    | none =>
      rw [hpu0] at hmem
      simp at hmem
    | some pu0 =>
      rw [hpu0] at hmem
      simp only [List.mem_singleton, Prod.mk.injEq] at hmem
      rw [hmem.2]

/-- C10 (amended) at the fresh nest, whose cached area is unknown: the returned nest
differs from the input and carries the current time, as does the write that is issued. -/
theorem C10_updated_iff_changed_witness :
    ¬ (freshNest.M2.Valid = true ∧ freshNest.M2.Float64 = float64.nan)
      ∧ (refreshNest (scenarioRefresher okStore none) (scenarioConfig 500 0)
          freshNest).nest.Updated
        = (if (refreshNest (scenarioRefresher okStore none) (scenarioConfig 500 0)
                freshNest).nest.identicalAttributes freshNest = true
           then freshNest.Updated else IntFrom (scenarioRefresher okStore none).Now)
      ∧ ((1, ⟨none, none, none, some true, none, some (IntFrom 1700000000)⟩) :
          Int × NestPartialUpdate)
        ∈ updatesOf (refreshNest (scenarioRefresher okStore none) (scenarioConfig 500 0)
            freshNest).locals.calls
      ∧ (⟨none, none, none, some true, none, some (IntFrom 1700000000)⟩ :
          NestPartialUpdate).Updated
        = some (IntFrom (scenarioRefresher okStore none).Now) :=
  ⟨by decide,
    ((C10_updated_iff_changed (scenarioRefresher okStore none) (scenarioConfig 500 0)
      freshNest).1 (by decide)).2,
    by decide,
    (C10_updated_iff_changed (scenarioRefresher okStore none) (scenarioConfig 500 0)
      freshNest).2.2 1 ⟨none, none, none, some true, none, some (IntFrom 1700000000)⟩
      (by decide)⟩

/-! ## Suppressed writes and the count query -/

/-- C11: when none of the computed discarded, area, spawnpoints and active compares
different from the input nest's value and no pokemon id has to be cleared, `refreshNest`
makes no call to `UpdateNestPartial` and returns the input nest unchanged with no error. -/
theorem C11_no_write_when_unchanged (r : DBRefresher) (c : RefreshNestConfig) (n : Nest)
    (hd : (refreshNest r c n).locals.discarded.Equal n.Discarded = true)
    (hm : (refreshNest r c n).locals.m2.Equal n.M2 = true)
    (hs : (refreshNest r c n).locals.spawnpoints.Equal n.Spawnpoints = true)
    (ha : (refreshNest r c n).locals.active.Equal n.Active = true)
    (hk : ¬ ((refreshNest r c n).locals.active.BoolVal = false ∧ n.PokemonId.Valid = true)) :
    updatesOf (refreshNest r c n).locals.calls = []
      ∧ (refreshNest r c n).nest = n
      ∧ (refreshNest r c n).err = none := by
  have hl := refreshNest_locals r c n
  rw [hl.1] at ha hk
  rw [hl.2.1] at hd
  rw [hl.2.2.1] at hm
  rw [hl.2.2.2] at hs
  have hnone := (evaluate_partialUpdate_eq_none r c n).2 ⟨hd, hm, hs, ha, hk⟩
  have hupd := refreshNest_updates r c n
  rw [hnone] at hupd
  rcases refreshNest_result r c n with ⟨_, hnest, herr, _⟩ | ⟨pu, hpu, _⟩
  · exact ⟨hupd, hnest, herr⟩
  · rw [hnone] at hpu
    cases hpu

/-- C11 at a nest whose cached attributes already match, against a store whose writes
fail: no write is attempted and the nest comes back as it was. -/
theorem C11_no_write_when_unchanged_witness :
    updatesOf (refreshNest (scenarioRefresher failingStore none) (scenarioConfig 500 0)
        staleNest).locals.calls = []
      ∧ (refreshNest (scenarioRefresher failingStore none) (scenarioConfig 500 0) staleNest).nest
          = staleNest
      ∧ (refreshNest (scenarioRefresher failingStore none) (scenarioConfig 500 0) staleNest).err
          = none :=
  C11_no_write_when_unchanged (scenarioRefresher failingStore none) (scenarioConfig 500 0)
    staleNest (by decide) (by decide) (by decide) (by decide) (by decide)

/-- C12: `refreshNest` issues the count query at most once, and only if the area is known
after the area step, it is within a positive maximum (or there is none), the cached count
is unknown or a refresh is forced, and golbat is configured; if one of these fails no
query is issued and the count stays the input nest's count. -/
theorem C12_count_query_at_most_once (r : DBRefresher) (c : RefreshNestConfig) (n : Nest) :
    (countQueriesOf (refreshNest r c n).locals.calls).length ≤ 1
      ∧ (countQueriesOf (refreshNest r c n).locals.calls ≠ [] →
          (areaStep r (init n)).m2.Valid = true
            ∧ (c.MaxAreaM2 ≤ 0 ∨ (areaStep r (init n)).m2.Float64 ≤ c.MaxAreaM2)
            ∧ (n.Spawnpoints.Valid = false ∨ c.ForceSpawnpointsRefresh = true)
            ∧ r.golbatDBStore.isSome = true)
      ∧ (¬ ((areaStep r (init n)).m2.Valid = true
            ∧ (c.MaxAreaM2 ≤ 0 ∨ (areaStep r (init n)).m2.Float64 ≤ c.MaxAreaM2)
            ∧ (n.Spawnpoints.Valid = false ∨ c.ForceSpawnpointsRefresh = true)
            ∧ r.golbatDBStore.isSome = true) →
          countQueriesOf (refreshNest r c n).locals.calls = []
            ∧ (refreshNest r c n).locals.spawnpoints = n.Spawnpoints) := by
  have hq := refreshNest_queries r c n
  have hl := refreshNest_locals r c n
  have hp := policy_classification r c n
  have ha := areaStep_init r n
  have hstep := spawnpointStep_queries r c (areaStep r (init n))
  rw [ha.1] at hstep
  have hskip : ¬ ((areaStep r (init n)).m2.Valid = true
            ∧ (c.MaxAreaM2 ≤ 0 ∨ (areaStep r (init n)).m2.Float64 ≤ c.MaxAreaM2)
            ∧ (n.Spawnpoints.Valid = false ∨ c.ForceSpawnpointsRefresh = true)
            ∧ r.golbatDBStore.isSome = true) →
          countQueriesOf (refreshNest r c n).locals.calls = []
            ∧ (refreshNest r c n).locals.spawnpoints = n.Spawnpoints := by
    intro hno
    have hsame : derive r c n = areaStep r (init n) := hstep.1 hno
    rw [hq, hl.2.2.2, hp.2.1, hsame]
    exact ⟨ha.2.2.1, ha.1⟩
  refine ⟨?_, ?_, hskip⟩
  · rw [hq]
    rcases hstep.2 with h | ⟨st, g, _, h, _⟩
    · have h2 : countQueriesOf (derive r c n).calls = [] := by
        unfold derive
        rw [h, ha.2.2.1]
      rw [h2]
      simp
    · have h2 : countQueriesOf (derive r c n).calls = [g] := by
        unfold derive
        rw [h, ha.2.2.1]
        rfl
      rw [h2]
      simp
  · intro hne
    by_contra hno
    exact hne (hskip hno).1

/-- C12 at the fresh nest with no golbat configured: no query, the count stays unknown. -/
theorem C12_count_query_at_most_once_witness :
    ¬ ((areaStep (scenarioRefresher okStore none) (init freshNest)).m2.Valid = true
        ∧ ((scenarioConfig 500 0).MaxAreaM2 ≤ 0
            ∨ (areaStep (scenarioRefresher okStore none) (init freshNest)).m2.Float64
                ≤ (scenarioConfig 500 0).MaxAreaM2)
        ∧ (freshNest.Spawnpoints.Valid = false
            ∨ (scenarioConfig 500 0).ForceSpawnpointsRefresh = true)
        ∧ (scenarioRefresher okStore none).golbatDBStore.isSome = true)
      ∧ countQueriesOf (refreshNest (scenarioRefresher okStore none) (scenarioConfig 500 0)
          freshNest).locals.calls = []
      ∧ (refreshNest (scenarioRefresher okStore none) (scenarioConfig 500 0)
          freshNest).locals.spawnpoints = freshNest.Spawnpoints :=
  ⟨by decide,
    (C12_count_query_at_most_once (scenarioRefresher okStore none) (scenarioConfig 500 0)
      freshNest).2.2 (by decide)⟩

/-! ## Failures absorbed into the classification -/

/-- C13: when the count query is issued and fails, the count `refreshNest` ends with is the
input nest's count, the classification is the precedence rule applied to the area and
that count (so an unknown count with an area not below the minimum is classified active,
the area being within the maximum whenever the query is issued), and any error returned
is the error of the storage write, not of the query. -/
theorem C13_failed_count_query_absorbed (r : DBRefresher) (c : RefreshNestConfig) (n : Nest)
    (st : GolbatDBStore) (g : Geometry) (e : String)
    (hst : r.golbatDBStore = some st)
    (hissued : g ∈ countQueriesOf (refreshNest r c n).locals.calls)
    (hfail : st.GetSpawnpointsCount g = .error e) :
    (refreshNest r c n).locals.spawnpoints = n.Spawnpoints
      ∧ ((refreshNest r c n).locals.active, (refreshNest r c n).locals.discarded)
          = classifySpec c (refreshNest r c n).locals.m2 n.Spawnpoints
      ∧ (n.Spawnpoints.Valid = false → c.MinAreaM2 ≤ (refreshNest r c n).locals.m2.Float64 →
          (refreshNest r c n).locals.active = BoolFrom true
            ∧ (refreshNest r c n).locals.discarded = NullString.zero)
      ∧ ((refreshNest r c n).err = none
          ∨ ∃ id pu e', (id, pu) ∈ updatesOf (refreshNest r c n).locals.calls
              ∧ r.nestsDBStore.UpdateNestPartial id pu = some e'
              ∧ (refreshNest r c n).err = some e') := by
  have hl := refreshNest_locals r c n
  have hp := policy_classification r c n
  rw [refreshNest_queries] at hissued
  obtain ⟨st', hst', _, hvalid, hmax, hsp⟩ := derive_of_query r c n g hissued
  rw [hst] at hst'
  cases hst'
  rw [hfail] at hsp
  simp only at hsp
  have hcl := hp.2.2
  rw [hsp] at hcl
  have hm : (refreshNest r c n).locals.m2 = (derive r c n).m2 := hl.2.2.1.trans hp.1
  have hs : (refreshNest r c n).locals.spawnpoints = n.Spawnpoints :=
    (hl.2.2.2.trans hp.2.1).trans hsp
  have hclass : ((refreshNest r c n).locals.active, (refreshNest r c n).locals.discarded)
      = classifySpec c (refreshNest r c n).locals.m2 n.Spawnpoints := by
    rw [hl.1, hl.2.1, hm]
    exact hcl
  refine ⟨hs, hclass, ?_, refreshNest_err r c n⟩
  intro hunknown hmin
  rw [hm] at hmin hclass
  have hnotmax : ¬ (c.MaxAreaM2 > 0 ∧ (derive r c n).m2.Float64 > c.MaxAreaM2) := by
    rintro ⟨hpos, hgt⟩
    rcases hmax with h | h
    · exact float64.not_lt_of_le _ _ h hpos
    · exact float64.not_lt_of_le _ _ h hgt
  simp only [classifySpec, hvalid, hunknown, float64.not_lt_of_le _ _ hmin, hnotmax, if_false,
    false_and, Bool.true_eq_false, Bool.false_eq_true] at hclass
  exact ⟨congrArg Prod.fst hclass, congrArg Prod.snd hclass⟩

/-- C13 at the fresh nest with a golbat store whose query fails: the count stays unknown
and the nest, of area 1000 with minimum 500, is classified active. -/
theorem C13_failed_count_query_absorbed_witness :
    (⟨"poly"⟩ : Geometry)
        ∈ countQueriesOf (refreshNest (scenarioRefresher okStore (some failingGolbat))
            (scenarioConfig 500 0) freshNest).locals.calls
      ∧ failingGolbat.GetSpawnpointsCount ⟨"poly"⟩ = .error "query failed"
      ∧ (refreshNest (scenarioRefresher okStore (some failingGolbat)) (scenarioConfig 500 0)
            freshNest).locals.spawnpoints = freshNest.Spawnpoints
      ∧ (refreshNest (scenarioRefresher okStore (some failingGolbat)) (scenarioConfig 500 0)
            freshNest).locals.active = BoolFrom true
      ∧ (refreshNest (scenarioRefresher okStore (some failingGolbat)) (scenarioConfig 500 0)
            freshNest).locals.discarded = NullString.zero :=
  ⟨by decide, rfl,
    (C13_failed_count_query_absorbed (scenarioRefresher okStore (some failingGolbat))
      (scenarioConfig 500 0) freshNest failingGolbat ⟨"poly"⟩ "query failed" rfl (by decide)
      rfl).1,
    (C13_failed_count_query_absorbed (scenarioRefresher okStore (some failingGolbat))
      (scenarioConfig 500 0) freshNest failingGolbat ⟨"poly"⟩ "query failed" rfl (by decide)
      rfl).2.2.1 rfl (by decide)⟩

/-- An area that is unknown after the spawnpoint step is classified "invalid". -/
theorem refreshNest_invalid_of_unknown_area (r : DBRefresher) (c : RefreshNestConfig)
    (n : Nest) (hm : (derive r c n).m2.Valid = false) :
    (refreshNest r c n).locals.discarded = StringFrom "invalid"
      ∧ (refreshNest r c n).locals.active = BoolFrom false := by
  have hl := refreshNest_locals r c n
  have hcl := (policy_classification r c n).2.2
  simp only [classifySpec, hm, if_true] at hcl
  rw [hl.1, hl.2.1]
  exact ⟨congrArg Prod.snd hcl, congrArg Prod.fst hcl⟩

/-- The area and count the call ends with are those after the spawnpoint step. -/
theorem refreshNest_derived (r : DBRefresher) (c : RefreshNestConfig) (n : Nest) :
    (refreshNest r c n).locals.m2 = (derive r c n).m2
      ∧ (refreshNest r c n).locals.spawnpoints = (derive r c n).spawnpoints := by
  have hl := refreshNest_locals r c n
  have hp := policy_classification r c n
  exact ⟨hl.2.2.1.trans hp.1, hl.2.2.2.trans hp.2.1⟩

theorem derive_unparsable_known (r : DBRefresher) (c : RefreshNestConfig) (n : Nest)
    (e : String) (hbad : n.Geometry r = .error e) (hv : n.M2.Valid = true)
    (hmax : c.MaxAreaM2 ≤ 0 ∨ n.M2.Float64 ≤ c.MaxAreaM2)
    (hsp : n.Spawnpoints.Valid = false ∨ c.ForceSpawnpointsRefresh = true)
    (hg : r.golbatDBStore.isSome = true) :
    (derive r c n).m2 = { n.M2 with Valid := false }
      ∧ (derive r c n).spawnpoints = { n.Spawnpoints with Valid := false }
      ∧ countQueriesOf (derive r c n).calls = [] := by
  cases hgol : r.golbatDBStore with
  | none => simp [hgol] at hg
  | some golbat =>
    simp [derive, areaStep, spawnpointStep, init, hbad, hv, hmax, hsp, hgol, countQueriesOf]

theorem derive_unparsable_unknown (r : DBRefresher) (c : RefreshNestConfig) (n : Nest)
    (e : String) (hbad : n.Geometry r = .error e) (hv : n.M2.Valid = false) :
    (derive r c n).m2 = n.M2
      ∧ (derive r c n).spawnpoints = n.Spawnpoints
      ∧ countQueriesOf (derive r c n).calls = [] := by
  simp [derive, areaStep, spawnpointStep, init, hbad, hv, countQueriesOf]

/-- C14: for a nest with a known cached area, when the spawnpoint step runs (area within
the maximum, count unknown or refresh forced, golbat configured) and the geometry does
not parse, `refreshNest` resets both area and count to unknown, issues no count query,
and classifies the nest "invalid" and not active. -/
theorem C14_geometry_invalid_at_spawnpoint_step (r : DBRefresher) (c : RefreshNestConfig)
    (n : Nest) (e : String) (hbad : n.Geometry r = .error e) (hv : n.M2.Valid = true)
    (hmax : c.MaxAreaM2 ≤ 0 ∨ n.M2.Float64 ≤ c.MaxAreaM2)
    (hsp : n.Spawnpoints.Valid = false ∨ c.ForceSpawnpointsRefresh = true)
    (hg : r.golbatDBStore.isSome = true) :
    (refreshNest r c n).locals.m2.Valid = false
      ∧ (refreshNest r c n).locals.spawnpoints.Valid = false
      ∧ countQueriesOf (refreshNest r c n).locals.calls = []
      ∧ (refreshNest r c n).locals.discarded = StringFrom "invalid"
      ∧ (refreshNest r c n).locals.active = BoolFrom false := by
  have hd := derive_unparsable_known r c n e hbad hv hmax hsp hg
  have hl := refreshNest_derived r c n
  have hm : (derive r c n).m2.Valid = false := by rw [hd.1]
  have hi := refreshNest_invalid_of_unknown_area r c n hm
  refine ⟨?_, ?_, ?_, hi.1, hi.2⟩
  · rw [hl.1, hd.1]
  · rw [hl.2, hd.2.1]
  · rw [refreshNest_queries, hd.2.2]

/-- C14 at a nest with cached area 1000 and cached count whose polygon does not parse,
with golbat configured and a forced refresh. -/
theorem C14_geometry_invalid_at_spawnpoint_step_witness :
    (refreshNest (scenarioRefresher okStore (some okGolbat))
        { scenarioConfig 500 0 with ForceSpawnpointsRefresh := true } staleNest).locals.m2.Valid
        = false
      ∧ (refreshNest (scenarioRefresher okStore (some okGolbat))
        { scenarioConfig 500 0 with ForceSpawnpointsRefresh := true }
          staleNest).locals.spawnpoints.Valid = false
      ∧ countQueriesOf (refreshNest (scenarioRefresher okStore (some okGolbat))
        { scenarioConfig 500 0 with ForceSpawnpointsRefresh := true } staleNest).locals.calls
        = []
      ∧ (refreshNest (scenarioRefresher okStore (some okGolbat))
        { scenarioConfig 500 0 with ForceSpawnpointsRefresh := true } staleNest).locals.discarded
        = StringFrom "invalid"
      ∧ (refreshNest (scenarioRefresher okStore (some okGolbat))
        { scenarioConfig 500 0 with ForceSpawnpointsRefresh := true } staleNest).locals.active
        = BoolFrom false :=
  C14_geometry_invalid_at_spawnpoint_step (scenarioRefresher okStore (some okGolbat))
    { scenarioConfig 500 0 with ForceSpawnpointsRefresh := true } staleNest "invalid geometry"
    rfl rfl (by decide) (by decide) rfl

/-- C15: for a nest whose area is unknown and whose geometry does not parse, `refreshNest`
leaves the area unknown, issues no count query, leaves the count as it was, and
classifies the nest "invalid" and not active. -/
theorem C15_unknown_area_unparsable_geometry (r : DBRefresher) (c : RefreshNestConfig)
    (n : Nest) (e : String) (hbad : n.Geometry r = .error e) (hv : n.M2.Valid = false) :
    (refreshNest r c n).locals.m2 = n.M2
      ∧ (refreshNest r c n).locals.m2.Valid = false
      ∧ countQueriesOf (refreshNest r c n).locals.calls = []
      ∧ (refreshNest r c n).locals.spawnpoints = n.Spawnpoints
      ∧ (refreshNest r c n).locals.discarded = StringFrom "invalid"
      ∧ (refreshNest r c n).locals.active = BoolFrom false := by
  have hd := derive_unparsable_unknown r c n e hbad hv
  have hl := refreshNest_derived r c n
  have hm : (derive r c n).m2.Valid = false := by rw [hd.1, hv]
  have hi := refreshNest_invalid_of_unknown_area r c n hm
  refine ⟨?_, ?_, ?_, ?_, hi.1, hi.2⟩
  · rw [hl.1, hd.1]
  · rw [hl.1, hd.1, hv]
  · rw [refreshNest_queries, hd.2.2]
  · rw [hl.2, hd.2.1]

/-- C15 at a nest with unknown area whose polygon does not parse, golbat configured. -/
theorem C15_unknown_area_unparsable_geometry_witness :
    (refreshNest (scenarioRefresher okStore (some okGolbat)) (scenarioConfig 500 0)
        brokenNest).locals.m2 = brokenNest.M2
      ∧ (refreshNest (scenarioRefresher okStore (some okGolbat)) (scenarioConfig 500 0)
        brokenNest).locals.m2.Valid = false
      ∧ countQueriesOf (refreshNest (scenarioRefresher okStore (some okGolbat))
        (scenarioConfig 500 0) brokenNest).locals.calls = []
      ∧ (refreshNest (scenarioRefresher okStore (some okGolbat)) (scenarioConfig 500 0)
        brokenNest).locals.spawnpoints = brokenNest.Spawnpoints
      ∧ (refreshNest (scenarioRefresher okStore (some okGolbat)) (scenarioConfig 500 0)
        brokenNest).locals.discarded = StringFrom "invalid"
      ∧ (refreshNest (scenarioRefresher okStore (some okGolbat)) (scenarioConfig 500 0)
        brokenNest).locals.active = BoolFrom false :=
  C15_unknown_area_unparsable_geometry (scenarioRefresher okStore (some okGolbat))
    (scenarioConfig 500 0) brokenNest "invalid geometry" rfl rfl

/-! ## The pokemon id of the returned nest -/

/-- C16: when `refreshNest` returns without error, the returned nest's pokemon id is
unknown if the computed outcome is not active, and is the input nest's pokemon id if the
computed outcome is active. -/
theorem C16_pokemon_id_of_returned_nest (r : DBRefresher) (c : RefreshNestConfig) (n : Nest)
    (h : (refreshNest r c n).err = none) :
    ((refreshNest r c n).locals.active ≠ BoolFrom true →
        (refreshNest r c n).nest.PokemonId.Valid = false)
      ∧ ((refreshNest r c n).locals.active = BoolFrom true →
        (refreshNest r c n).nest.PokemonId = n.PokemonId) := by
  obtain ⟨u, hu⟩ := refreshNest_ok_nest r c n h
  have hl := refreshNest_locals r c n
  have hs := policy_status r c n
  have hpk : (refreshNest r c n).nest.PokemonId
      = if (policy r c n).active.BoolVal = false ∧ n.PokemonId.Valid = true
        then { n.PokemonId with Valid := false } else n.PokemonId := by
    rw [hu, evaluate_nest]
  rw [hl.1, hpk]
  constructor
  · intro hna
    have hb : (policy r c n).active.BoolVal = false := by
      cases hbv : (policy r c n).active.BoolVal with
      | false => rfl
      | true =>
        exfalso
        apply hna
        cases hp : (policy r c n).active with
        | mk bv vv =>
          rw [hp] at hbv
          have hv := hs.1
          rw [hp] at hv
          simp only at hbv hv
          rw [hbv, hv]
          rfl
    cases hv : n.PokemonId.Valid with
    | false => simp [hb, hv]
    | true => simp [hb, hv]
  · intro ha
    rw [ha]
    simp [BoolFrom]

/-- C16 at an active nest with pokemon id 25 that the area filter deactivates. -/
theorem C16_pokemon_id_of_returned_nest_witness :
    (refreshNest (scenarioRefresher okStore none) (scenarioConfig 100 0) taggedNest).err = none
      ∧ (refreshNest (scenarioRefresher okStore none) (scenarioConfig 100 0)
          taggedNest).locals.active ≠ BoolFrom true
      ∧ (refreshNest (scenarioRefresher okStore none) (scenarioConfig 100 0)
          taggedNest).nest.PokemonId.Valid = false :=
  ⟨by decide, by decide,
    (C16_pokemon_id_of_returned_nest (scenarioRefresher okStore none) (scenarioConfig 100 0)
      taggedNest (by decide)).1 (by decide)⟩

/-! ## Error propagation in `RefreshAllNests` -/

/-- C17: if the per-nest iteration returns an error, `RefreshAllNests` returns that error
and the overlap pass is not invoked; an overlap pass in the trace comes after the
iteration, which returned no error, is run with the configured threshold, and its error
is the error returned; and when the iteration returns no error and the overlap pass is
skipped or succeeds, no error is returned. -/
theorem C17_refreshAll_error_propagation (r : DBRefresher) (c : RefreshNestConfig) :
    (∀ e, r.nestsDBStore.IterateNestsConcurrently
            { Concurrency := c.Concurrency, IncludePolygon := true }
            (fun nest => (refreshNest r c nest).err) = some e →
        (RefreshAllNests r c).1 = some e ∧ overlapPassesOf (RefreshAllNests r c).2 = [])
      ∧ (∀ p, p ∈ overlapPassesOf (RefreshAllNests r c).2 →
          r.nestsDBStore.IterateNestsConcurrently
              { Concurrency := c.Concurrency, IncludePolygon := true }
              (fun nest => (refreshNest r c nest).err) = none
            ∧ p = c.MaxOverlapPercent
            ∧ (RefreshAllNests r c).2
                = [Call.IterateNestsConcurrently
                    { Concurrency := c.Concurrency, IncludePolygon := true },
                   Call.DisableOverlappingNests p]
            ∧ ∀ e, r.nestsDBStore.DisableOverlappingNests p = .error e →
                (RefreshAllNests r c).1 = some e)
      ∧ (r.nestsDBStore.IterateNestsConcurrently
              { Concurrency := c.Concurrency, IncludePolygon := true }
              (fun nest => (refreshNest r c nest).err) = none →
          (overlapPassesOf (RefreshAllNests r c).2 = []
            ∨ ∃ k, r.nestsDBStore.DisableOverlappingNests c.MaxOverlapPercent = .ok k) →
          (RefreshAllNests r c).1 = none) := by
  unfold RefreshAllNests
  cases hiter : r.nestsDBStore.IterateNestsConcurrently
      { Concurrency := c.Concurrency, IncludePolygon := true }
      (fun nest => (refreshNest r c nest).err) with
  | some e0 => simp [hiter, overlapPassesOf]
  | none =>
    by_cases hskip : c.MaxOverlapPercent < 0 ∨ c.MaxOverlapPercent ≥ 100
    · simp [hiter, hskip, overlapPassesOf]
    · cases hov : r.nestsDBStore.DisableOverlappingNests c.MaxOverlapPercent with
      | error e1 => simp [hiter, hskip, hov, overlapPassesOf]
      | ok k => simp [hiter, hskip, hov, overlapPassesOf]

/-- C17 at a store holding the fresh nest whose write fails: the iteration returns the
write's error, `RefreshAllNests` returns it and runs no overlap pass. -/
theorem C17_refreshAll_error_propagation_witness :
    (failingListStore [freshNest]).IterateNestsConcurrently
        { Concurrency := (scenarioConfig 500 0).Concurrency, IncludePolygon := true }
        (fun nest => (refreshNest (scenarioRefresher (failingListStore [freshNest]) none)
          (scenarioConfig 500 0) nest).err) = some "write failed"
      ∧ (RefreshAllNests (scenarioRefresher (failingListStore [freshNest]) none)
          (scenarioConfig 500 0)).1 = some "write failed"
      ∧ overlapPassesOf (RefreshAllNests (scenarioRefresher (failingListStore [freshNest]) none)
          (scenarioConfig 500 0)).2 = [] :=
  ⟨by decide,
    (C17_refreshAll_error_propagation (scenarioRefresher (failingListStore [freshNest]) none)
      (scenarioConfig 500 0)).1 "write failed" (by decide)⟩

/-! ## Area scenarios -/

/-- C18 as stated fails: a nest with known area 50 below the minimum 100, no maximum, an
unknown count and golbat configured, whose polygon does not parse, is classified
"invalid", not "area". -/
theorem C18_small_area_not_always_area :
    ¬ ∀ (r : DBRefresher) (c : RefreshNestConfig) (n : Nest),
        n.M2.Valid = true → n.M2.Float64 < c.MinAreaM2 → c.MaxAreaM2 = 0 →
          (refreshNest r c n).locals.discarded = StringFrom "area" := by
  intro h
  have h1 := h (scenarioRefresher okStore (some okGolbat)) (scenarioConfig 100 0)
    smallBrokenNest rfl (by decide) rfl
  revert h1
  decide

/-- C18, amended: a nest whose area is known and below the minimum, with no maximum, is
classified "area" and not active for every cached count, every value of the force flag and
every outcome of the count query, provided its geometry parses or the spawnpoint step
does not run (count known and no forced refresh, or golbat not configured). -/
theorem C18_small_area_discarded (r : DBRefresher) (c : RefreshNestConfig) (n : Nest)
    (hv : n.M2.Valid = true) (hsmall : n.M2.Float64 < c.MinAreaM2) (_hmax : c.MaxAreaM2 = 0)
    (hgeo : (∃ g, n.Geometry r = .ok g)
      ∨ ¬ ((n.Spawnpoints.Valid = false ∨ c.ForceSpawnpointsRefresh = true)
            ∧ r.golbatDBStore.isSome = true)) :
    (refreshNest r c n).locals.discarded = StringFrom "area"
      ∧ (refreshNest r c n).locals.active = BoolFrom false
      ∧ (refreshNest r c n).locals.m2 = n.M2 := by
  have hl := refreshNest_locals r c n
  have hp := policy_classification r c n
  have hm : (derive r c n).m2 = n.M2 := by
    rcases hgeo with ⟨g, hg⟩ | hno
    · exact derive_m2_of_parsed r c n g hv hg
    · exact (derive_of_skip r c n hv (fun h => hno h.2)).1
  have hcl := hp.2.2
  rw [hm] at hcl
  simp only [classifySpec, hv, hsmall, if_true, Bool.true_eq_false, if_false] at hcl
  refine ⟨?_, ?_, ?_⟩
  · rw [hl.2.1]
    exact congrArg Prod.snd hcl
  · rw [hl.1]
    exact congrArg Prod.fst hcl
  · rw [hl.2.2.1, hp.1, hm]

/-- C18 (amended) at a nest of cached area 50 with minimum 100 and no maximum, golbat
configured and a forced refresh. -/
theorem C18_small_area_discarded_witness :
    taggedNest.M2.Float64 < ({ scenarioConfig 100 0 with ForceSpawnpointsRefresh := true }).MinAreaM2
      ∧ (refreshNest (scenarioRefresher okStore (some okGolbat))
          { scenarioConfig 100 0 with ForceSpawnpointsRefresh := true } taggedNest).locals.discarded
          = StringFrom "area"
      ∧ (refreshNest (scenarioRefresher okStore (some okGolbat))
          { scenarioConfig 100 0 with ForceSpawnpointsRefresh := true } taggedNest).locals.active
          = BoolFrom false
      ∧ (refreshNest (scenarioRefresher okStore (some okGolbat))
          { scenarioConfig 100 0 with ForceSpawnpointsRefresh := true } taggedNest).locals.m2
          = taggedNest.M2 :=
  ⟨by decide,
    C18_small_area_discarded (scenarioRefresher okStore (some okGolbat))
      { scenarioConfig 100 0 with ForceSpawnpointsRefresh := true } taggedNest rfl (by decide)
      rfl (Or.inl ⟨⟨"poly"⟩, rfl⟩)⟩

/-- C19 as stated fails: when the polygon's area is NaN, with minimum 500 and maximum 800,
neither area comparison of the classification holds and the nest is classified active,
while `A ≥ MinAreaM2` is false. -/
theorem C19_nan_area_is_active :
    ¬ ∀ (r : DBRefresher) (c : RefreshNestConfig) (n : Nest) (g : Geometry),
        n.M2.Valid = false → n.Spawnpoints.Valid = false → n.Geometry r = .ok g →
        r.golbatDBStore = none →
          ((refreshNest r c n).locals.active, (refreshNest r c n).locals.discarded)
            = (if c.MinAreaM2 ≤ r.Area g ∧ (c.MaxAreaM2 ≤ 0 ∨ r.Area g ≤ c.MaxAreaM2)
               then (BoolFrom true, NullString.zero)
               else (BoolFrom false, StringFrom "area")) := by
  intro h
  have h1 := h (nanAreaRefresher okStore none) (scenarioConfig 500 800) freshNest ⟨"poly"⟩
    rfl rfl rfl rfl
  revert h1
  decide

/-- C19, amended: a nest with unknown area and unknown count whose polygon parses with area
`A`, refreshed with no golbat configured, ends with area `A` and an unknown count, and is
classified "area" exactly when `A < MinAreaM2` or (`MaxAreaM2 > 0` and `A > MaxAreaM2`),
and active otherwise; when none of `A`, `MinAreaM2` and `MaxAreaM2` is NaN, that is:
active exactly when `A ≥ MinAreaM2` and (`MaxAreaM2 ≤ 0` or `A ≤ MaxAreaM2`). -/
theorem C19_area_scenario_without_golbat (r : DBRefresher) (c : RefreshNestConfig) (n : Nest)
    (g : Geometry) (hv : n.M2.Valid = false) (hs : n.Spawnpoints.Valid = false)
    (hg : n.Geometry r = .ok g) (hgol : r.golbatDBStore = none) :
    (refreshNest r c n).locals.m2 = FloatFrom (r.Area g)
      ∧ (refreshNest r c n).locals.spawnpoints = n.Spawnpoints
      ∧ (refreshNest r c n).locals.spawnpoints.Valid = false
      ∧ ((refreshNest r c n).locals.active, (refreshNest r c n).locals.discarded)
          = (if r.Area g < c.MinAreaM2 ∨ (c.MaxAreaM2 > 0 ∧ r.Area g > c.MaxAreaM2)
             then (BoolFrom false, StringFrom "area")
             else (BoolFrom true, NullString.zero))
      ∧ (r.Area g ≠ float64.nan → c.MinAreaM2 ≠ float64.nan → c.MaxAreaM2 ≠ float64.nan →
          ((refreshNest r c n).locals.active, (refreshNest r c n).locals.discarded)
            = (if c.MinAreaM2 ≤ r.Area g ∧ (c.MaxAreaM2 ≤ 0 ∨ r.Area g ≤ c.MaxAreaM2)
               then (BoolFrom true, NullString.zero)
               else (BoolFrom false, StringFrom "area"))) := by
  have hl := refreshNest_locals r c n
  have hp := policy_classification r c n
  have hd : (derive r c n).m2 = FloatFrom (r.Area g)
      ∧ (derive r c n).spawnpoints = n.Spawnpoints := by
    simp [derive, areaStep, spawnpointStep, init, hv, hg, hgol]
  have hcl := hp.2.2
  rw [hd.1, hd.2] at hcl
  have hcode : ((refreshNest r c n).locals.active, (refreshNest r c n).locals.discarded)
      = (if r.Area g < c.MinAreaM2 ∨ (c.MaxAreaM2 > 0 ∧ r.Area g > c.MaxAreaM2)
         then (BoolFrom false, StringFrom "area")
         else (BoolFrom true, NullString.zero)) := by
    rw [hl.1, hl.2.1, hcl]
    unfold classifySpec
    simp only [FloatFrom, hs, Bool.true_eq_false, if_false, Bool.false_eq_true, false_and]
    by_cases hmin : r.Area g < c.MinAreaM2
    · rw [if_pos hmin, if_pos (Or.inl hmin)]
    · rw [if_neg hmin]
      by_cases hbig : c.MaxAreaM2 > 0 ∧ r.Area g > c.MaxAreaM2
      · rw [if_pos hbig, if_pos (Or.inr hbig)]
      · have hno : ¬ (r.Area g < c.MinAreaM2 ∨ (c.MaxAreaM2 > 0 ∧ r.Area g > c.MaxAreaM2)) := by
          rintro (h | h)
          · exact hmin h
          · exact hbig h
        rw [if_neg hbig, if_neg hno]
  refine ⟨by rw [hl.2.2.1, hp.1, hd.1], by rw [hl.2.2.2, hp.2.1, hd.2],
    by rw [hl.2.2.2, hp.2.1, hd.2, hs], hcode, ?_⟩
  intro hA hMin hMax
  rw [hcode]
  by_cases hmin : r.Area g < c.MinAreaM2
  · have hno : ¬ (c.MinAreaM2 ≤ r.Area g ∧ (c.MaxAreaM2 ≤ 0 ∨ r.Area g ≤ c.MaxAreaM2)) :=
      fun h => float64.not_le_of_lt _ _ hmin h.1
    rw [if_pos (Or.inl hmin), if_neg hno]
  · by_cases hbig : c.MaxAreaM2 > 0 ∧ r.Area g > c.MaxAreaM2
    · have hno : ¬ (c.MinAreaM2 ≤ r.Area g ∧ (c.MaxAreaM2 ≤ 0 ∨ r.Area g ≤ c.MaxAreaM2)) := by
        rintro ⟨_, h | h⟩
        · exact float64.not_lt_of_le _ _ h hbig.1
        · exact float64.not_lt_of_le _ _ h hbig.2
      rw [if_pos (Or.inr hbig), if_neg hno]
    · have hno : ¬ (r.Area g < c.MinAreaM2 ∨ (c.MaxAreaM2 > 0 ∧ r.Area g > c.MaxAreaM2)) := by
        rintro (h | h)
        · exact hmin h
        · exact hbig h
      have hyes : c.MinAreaM2 ≤ r.Area g ∧ (c.MaxAreaM2 ≤ 0 ∨ r.Area g ≤ c.MaxAreaM2) := by
        refine ⟨float64.le_of_not_lt _ _ hA hMin hmin, ?_⟩
        by_cases h0 : (0 : float64) < c.MaxAreaM2
        · right
          exact float64.le_of_not_lt _ _ hMax hA (fun h => hbig ⟨h0, h⟩)
        · left
          exact float64.le_of_not_lt _ _ (by decide) hMax h0
      rw [if_neg hno, if_pos hyes]

/-- C19 (amended) at the fresh nest covering 1000 m² with minimum 500: active with no
maximum, "area" with maximum 800. -/
theorem C19_area_scenario_without_golbat_witness :
    ((refreshNest (scenarioRefresher okStore none) (scenarioConfig 500 0) freshNest).locals.m2
        = FloatFrom 1000
      ∧ (refreshNest (scenarioRefresher okStore none) (scenarioConfig 500 0)
          freshNest).locals.spawnpoints.Valid = false
      ∧ ((refreshNest (scenarioRefresher okStore none) (scenarioConfig 500 0)
            freshNest).locals.active,
          (refreshNest (scenarioRefresher okStore none) (scenarioConfig 500 0)
            freshNest).locals.discarded)
        = (BoolFrom true, NullString.zero))
      ∧ ((refreshNest (scenarioRefresher okStore none) (scenarioConfig 500 800)
            freshNest).locals.active,
          (refreshNest (scenarioRefresher okStore none) (scenarioConfig 500 800)
            freshNest).locals.discarded)
        = (BoolFrom false, StringFrom "area") :=
  ⟨⟨(C19_area_scenario_without_golbat (scenarioRefresher okStore none) (scenarioConfig 500 0)
        freshNest ⟨"poly"⟩ rfl rfl rfl rfl).1,
      (C19_area_scenario_without_golbat (scenarioRefresher okStore none) (scenarioConfig 500 0)
        freshNest ⟨"poly"⟩ rfl rfl rfl rfl).2.2.1,
      ((C19_area_scenario_without_golbat (scenarioRefresher okStore none) (scenarioConfig 500 0)
        freshNest ⟨"poly"⟩ rfl rfl rfl rfl).2.2.2.2 (by decide) (by decide)
        (by decide)).trans (by decide)⟩,
    ((C19_area_scenario_without_golbat (scenarioRefresher okStore none) (scenarioConfig 500 800)
      freshNest ⟨"poly"⟩ rfl rfl rfl rfl).2.2.2.2 (by decide) (by decide)
      (by decide)).trans (by decide)⟩

/-! ## Independence from the previous status -/

/-- C20: two nests that agree on polygon, cached area and cached count get, under the same
configuration and collaborators, the same computed active and discarded values (and the
same area and count), whatever their previous active, discarded, pokemon id and updated
values; in particular a nest previously discarded for "overlap" whose derived area and
count pass the filters is computed active with no discard reason, and the nest returned
without error is active with `discarded` unset. -/
theorem C20_classification_independent_of_status (r : DBRefresher) (c : RefreshNestConfig)
    (n1 n2 : Nest) (hpoly : n1.Polygon = n2.Polygon) (hm : n1.M2 = n2.M2)
    (hs : n1.Spawnpoints = n2.Spawnpoints) :
    ((refreshNest r c n1).locals.active = (refreshNest r c n2).locals.active
        ∧ (refreshNest r c n1).locals.discarded = (refreshNest r c n2).locals.discarded
        ∧ (refreshNest r c n1).locals.m2 = (refreshNest r c n2).locals.m2
        ∧ (refreshNest r c n1).locals.spawnpoints = (refreshNest r c n2).locals.spawnpoints)
      ∧ (n1.Discarded = StringFrom "overlap" →
          classifySpec c (derive r c n1).m2 (derive r c n1).spawnpoints
            = (BoolFrom true, NullString.zero) →
          (refreshNest r c n1).locals.active = BoolFrom true
            ∧ (refreshNest r c n1).locals.discarded = NullString.zero
            ∧ ((refreshNest r c n1).err = none →
                (refreshNest r c n1).nest.Active = BoolFrom true
                  ∧ (refreshNest r c n1).nest.Discarded = NullString.zero)) := by
  have hl1 := refreshNest_locals r c n1
  have hl2 := refreshNest_locals r c n2
  have hp1 := policy_classification r c n1
  have hp2 := policy_classification r c n2
  have hd := derive_congr r c n1 n2 hpoly hm hs
  have hcl : ((policy r c n1).active, (policy r c n1).discarded)
      = ((policy r c n2).active, (policy r c n2).discarded) := by
    rw [hp1.2.2, hp2.2.2, hd.1, hd.2.1]
  refine ⟨⟨?_, ?_, ?_, ?_⟩, ?_⟩
  · rw [hl1.1, hl2.1]
    exact congrArg Prod.fst hcl
  · rw [hl1.2.1, hl2.2.1]
    exact congrArg Prod.snd hcl
  · rw [hl1.2.2.1, hl2.2.2.1, hp1.1, hp2.1, hd.1]
  · rw [hl1.2.2.2, hl2.2.2.2, hp1.2.1, hp2.2.1, hd.2.1]
  · intro hov hpass
    have hact : (policy r c n1).active = BoolFrom true := by
      have := congrArg Prod.fst (hp1.2.2.trans hpass)
      exact this
    have hdis : (policy r c n1).discarded = NullString.zero := by
      have := congrArg Prod.snd (hp1.2.2.trans hpass)
      exact this
    refine ⟨hl1.1.trans hact, hl1.2.1.trans hdis, ?_⟩
    intro herr
    obtain ⟨u, hu⟩ := refreshNest_ok_nest r c n1 herr
    rw [hu, evaluate_nest, hact, hdis, hov]
    constructor
    · show (if (BoolFrom true).Equal n1.Active = true then n1.Active else BoolFrom true)
        = BoolFrom true
      split_ifs with hq
      · have h2 := NullBool.eq_of_Equal_valid _ _ hq rfl
        cases hA : n1.Active with
        | mk bv vv =>
          rw [hA] at h2
          simp only [BoolFrom] at h2
          rw [h2.1, h2.2]
          rfl
      · rfl
    · show (if NullString.zero.Equal (StringFrom "overlap") = true then StringFrom "overlap"
          else NullString.zero) = NullString.zero
      rfl

/-- C20 at a nest the overlap pass discarded (area 1000, count 20): it classifies like the
same nest with an active status, and is returned active with `discarded` unset. -/
theorem C20_classification_independent_of_status_witness :
    (refreshNest (scenarioRefresher okStore none) (scenarioConfig 500 0) overlapNest).locals.active
        = (refreshNest (scenarioRefresher okStore none) (scenarioConfig 500 0)
            { overlapNest with Active := BoolFrom true, Discarded := NullString.zero,
                               PokemonId := IntFrom 25, Updated := ⟨0, false⟩ }).locals.active
      ∧ (refreshNest (scenarioRefresher okStore none) (scenarioConfig 500 0) overlapNest).nest.Active
        = BoolFrom true
      ∧ (refreshNest (scenarioRefresher okStore none) (scenarioConfig 500 0)
          overlapNest).nest.Discarded = NullString.zero :=
  ⟨(C20_classification_independent_of_status (scenarioRefresher okStore none)
      (scenarioConfig 500 0) overlapNest
      { overlapNest with Active := BoolFrom true, Discarded := NullString.zero,
                         PokemonId := IntFrom 25, Updated := ⟨0, false⟩ } rfl rfl rfl).1.1,
    ((C20_classification_independent_of_status (scenarioRefresher okStore none)
      (scenarioConfig 500 0) overlapNest overlapNest rfl rfl rfl).2 rfl (by decide)).2.2
      (by decide)⟩

end Fletchling
